import Mathlib

/-!
Shallow embedding of the statistical analytics engine of the PCIAnalyze
dashboard: the `KPICalculator`, `ProcessAnalytics` and `AnalyticsService`
classes.  JavaScript numbers are modelled as real numbers (`ℝ`); record
field values are modelled by the `Scalar` type below, with exact rational
numeric payloads so that record manipulation stays computable.  Host-level
JavaScript primitives that are not part of the repository's code
(number-to-string rendering, `Number(string)` parsing, `Date` parsing) are
abstracted into a `JSEnv` parameter; every theorem is universally
quantified over it.
-/

/-- A dynamically typed scalar value stored in a record field
(JS number / string / boolean / null / undefined).  Numbers carry exact
rationals; IEEE `NaN`/`Infinity` payloads are not representable. -/
inductive Scalar where
  | num (q : ℚ)
  | str (s : String)
  | bool (b : Bool)
  | null
  | undefined
deriving DecidableEq

/-- A data record: an association list from field names to scalar values
(a JS object used as a string-keyed map; `find?` takes the first binding). -/
abbrev Row := List (String × Scalar)

/-- JS property access `item[field]`: a missing key yields `undefined`. -/
def Row.getF (r : Row) (f : String) : Scalar :=
  match r.find? (fun p => p.1 == f) with
  | some p => p.2
  | none => .undefined

/-- Host-language primitives abstracted from the embedding:
`numToStr` models JS `String(number)`, `strToNum` models JS
`Number(string)` (`none` standing for `NaN`), and `dateNum` models
`new Date(x).getTime()` in milliseconds (`none` standing for an invalid
date / `NaN`). -/
structure JSEnv where
  numToStr : ℚ → String
  strToNum : String → Option ℚ
  dateNum : Scalar → Option ℚ

/-- JS truthiness (`Boolean(x)`). `0`, `""`, `false`, `null` and
`undefined` are falsy. -/
def jsTruthy : Scalar → Bool
  | .num q => q != 0
  | .str s => s != ""
  | .bool b => b
  | .null => false
  | .undefined => false

/-- JS `String(x)` coercion. -/
def jsToString (env : JSEnv) : Scalar → String
  | .num q => env.numToStr q
  | .str s => s
  | .bool b => if b then "true" else "false"
  | .null => "null"
  | .undefined => "undefined"

/-- JS `Number(x)` coercion; `none` models `NaN`. -/
def toNumber (env : JSEnv) : Scalar → Option ℚ
  | .num q => some q
  | .str s => env.strToNum s
  | .bool b => some (if b then 1 else 0)
  | .null => some 0
  | .undefined => none

/-- `String(item[field] || 'Unknown')` — the grouping key used throughout
the engine: the fallback replaces falsy values. -/
def jsKeyOr (env : JSEnv) (v : Scalar) (dflt : String) : String :=
  if jsTruthy v then jsToString env v else dflt

/-- The numeric values extracted from a field over a record list:
`data.map(item => Number(item[f])).filter(v => !isNaN(v))`, cast to `ℝ`. -/
def numericValues (env : JSEnv) (data : List Row) (f : String) : List ℝ :=
  (data.filterMap fun item => toNumber env (item.getF f)).map (fun q => (q : ℝ))

/-- JS `x || d` on an option-bearing numeric setting: `0` (falsy) falls back
to the default. -/
noncomputable def orDefault (x d : ℝ) : ℝ := if x = 0 then d else x

/-- JS `Array.prototype.map((value, index) => ...)`: a structurally
recursive map with the element index, starting at `i`. -/
def mapWithIdx {α β : Type} (f : ℕ → α → β) : ℕ → List α → List β
  | _, [] => []
  | i, a :: l => f i a :: mapWithIdx f (i + 1) l

/-- `Math.min(...xs)`; `Math.min()` of an empty spread is `Infinity`, which
has no real counterpart — the empty case is modelled as `0` and proved
unreachable at every call site (claim C10). -/
def jsMin : List ℝ → ℝ
  | [] => 0
  | a :: l => l.foldl min a

/-- `Math.max(...xs)`; empty case modelled as `0`, unreachable as above. -/
def jsMax : List ℝ → ℝ
  | [] => 0
  | a :: l => l.foldl max a

namespace KPICalculator

/-- Resolved `KPICalculatorOptions` (the constructor merges defaults, so
every field is present). -/
structure Options where
  confidenceLevel : ℝ := 0.95
  outlierDetection : Bool := true
  outlierThreshold : ℝ := 1.5

structure RFTResult where
  rate : ℝ
  confidenceInterval : ℝ × ℝ
  sampleSize : ℕ

structure ProcessDurationResult where
  average : ℝ
  median : ℝ
  min : ℝ
  max : ℝ
  stdDev : ℝ
  confidenceInterval : ℝ × ℝ
  outliers : List ℝ
  sampleSize : ℕ

structure VarianceAnalysisResult where
  groupName : String
  average : ℝ
  variance : ℝ
  sampleSize : ℕ
  significantlyDifferent : Prop
  pValue : ℝ

structure RegressionResult where
  slope : ℝ
  intercept : ℝ
  rSquared : ℝ

/-- `calculateMean`. -/
noncomputable def calculateMean (values : List ℝ) : ℝ :=
  if values.length = 0 then 0 else values.sum / values.length

/-- `calculateMedian`: sort ascending, middle element (or mean of the two
middle elements); empty input returns `0`. -/
noncomputable def calculateMedian (values : List ℝ) : ℝ :=
  if values.length = 0 then 0
  else
    let sortedValues := values.insertionSort (· ≤ ·)
    let midIndex := sortedValues.length / 2
    if sortedValues.length % 2 = 0 then
      (sortedValues.getD (midIndex - 1) 0 + sortedValues.getD midIndex 0) / 2
    else sortedValues.getD midIndex 0

/-- `calculateVariance`: sample variance (divisor `n − 1`), `0` for `n ≤ 1`. -/
noncomputable def calculateVariance (values : List ℝ) : ℝ :=
  if values.length ≤ 1 then 0
  else
    let mean := calculateMean values
    ((values.map fun value => (value - mean) ^ 2).sum) / (values.length - 1)

/-- `calculateStandardDeviation = sqrt ∘ calculateVariance`. -/
noncomputable def calculateStandardDeviation (values : List ℝ) : ℝ :=
  Real.sqrt (calculateVariance values)

/-- `normalCDF`: the Abramowitz–Stegun style rational approximation used by
the source, with its literal constants. -/
noncomputable def normalCDF (x : ℝ) : ℝ :=
  let t := 1 / (1 + 0.2316419 * |x|)
  let d := 0.3989423 * Real.exp (-x * x / 2)
  let p := d * t * (0.3193815 + t * (-0.3565638 + t * (1.781478 + t * (-1.821256 + t * 1.330274))))
  if 0 < x then 1 - p else p

/-- `inverseNormalCDF`: the source's rational approximation.  The JS code
returns `±Infinity` for `p ≤ 0` / `p ≥ 1`; those two branches have no real
counterpart and are modelled as `0` (they are unreachable for
`0 < p < 1`, the only case exercised by `getZScore` on levels in `(0,1)`). -/
noncomputable def inverseNormalCDF (p : ℝ) : ℝ :=
  if p ≤ 0 then 0
  else if 1 ≤ p then 0
  else
    let a1 : ℝ := -39.6968302866538
    let a2 : ℝ := 220.946098424521
    let a3 : ℝ := -275.928510446969
    let a4 : ℝ := 138.357751867269
    let a5 : ℝ := -30.6647980661472
    let a6 : ℝ := 2.50662827745924
    let b1 : ℝ := -54.4760987982241
    let b2 : ℝ := 161.585836858041
    let b3 : ℝ := -155.698979859887
    let b4 : ℝ := 66.8013118877197
    let b5 : ℝ := -13.2806815528857
    let c1 : ℝ := -7.78489400243029e-3
    let c2 : ℝ := -0.322396458041136
    let c3 : ℝ := -2.40075827716184
    let c4 : ℝ := -2.54973253934373
    let c5 : ℝ := 4.37466414146497
    let c6 : ℝ := 2.93816398269878
    let d1 : ℝ := 7.78469570904146e-3
    let d2 : ℝ := 0.32246712907004
    let d3 : ℝ := 2.445134137143
    let d4 : ℝ := 3.75440866190742
    let q := p - 0.5
    if |q| ≤ 0.425 then
      let r := 0.180625 - q * q
      q * (((((a6 * r + a5) * r + a4) * r + a3) * r + a2) * r + a1) /
        (((((b5 * r + b4) * r + b3) * r + b2) * r + b1) * r + 1)
    else
      let r0 := if q < 0 then p else 1 - p
      let r1 := Real.sqrt (-Real.log r0)
      let x :=
        if r1 ≤ 5 then
          let r := r1 - 1.6
          (((((c6 * r + c5) * r + c4) * r + c3) * r + c2) * r + c1) /
            ((((d4 * r + d3) * r + d2) * r + d1) * r + 1)
        else
          let r := r1 - 5
          (((((c6 * r + c5) * r + c4) * r + c3) * r + c2) * r + c1) /
            ((((d4 * r + d3) * r + d2) * r + d1) * r + 1)
      if q < 0 then -x else x

/-- `getZScore`: exact lookups for 0.90 / 0.95 / 0.99, otherwise
`-inverseNormalCDF(alpha / 2)`. -/
noncomputable def getZScore (confidenceLevel : ℝ) : ℝ :=
  if confidenceLevel = 0.90 then 1.645
  else if confidenceLevel = 0.95 then 1.96
  else if confidenceLevel = 0.99 then 2.576
  else -inverseNormalCDF ((1 - confidenceLevel) / 2)

/-- `calculateWilsonInterval`: Wilson score interval; `total = 0 → (0, 0)`. -/
noncomputable def calculateWilsonInterval (successes total : ℕ)
    (confidenceLevel : ℝ) : ℝ × ℝ :=
  if total = 0 then (0, 0)
  else
    let proportion : ℝ := (successes : ℝ) / (total : ℝ)
    let z := getZScore confidenceLevel
    let z2 := z * z
    let numerator := proportion + z2 / (2 * total)
    let denominator := 1 + z2 / total
    let center := numerator / denominator
    let adjustment :=
      z * Real.sqrt ((proportion * (1 - proportion) + z2 / (4 * total)) / total) / denominator
    (max 0 (center - adjustment), min 1 (center + adjustment))

/-- `calculateConfidenceIntervalForMean`: normal-approximation interval
`mean ± z·σ/√n`; empty input returns `(0, 0)`. -/
noncomputable def calculateConfidenceIntervalForMean (values : List ℝ)
    (confidenceLevel : ℝ) : ℝ × ℝ :=
  if values.length = 0 then (0, 0)
  else
    let mean := calculateMean values
    let stdDev := calculateStandardDeviation values
    let n : ℝ := values.length
    let z := getZScore confidenceLevel
    let marginOfError := z * (stdDev / Real.sqrt n)
    (mean - marginOfError, mean + marginOfError)

/-- `detectOutliers` (IQR method).  `Math.floor(n * 0.25)` and
`Math.floor(n * 0.75)` are exact in binary floating point and equal the
natural-number divisions `n / 4` and `3 * n / 4`. -/
noncomputable def detectOutliers (values : List ℝ) (threshold : ℝ) :
    List ℝ × List ℝ :=
  if values.length = 0 then ([], [])
  else
    let sortedValues := values.insertionSort (· ≤ ·)
    let q1Index := sortedValues.length / 4
    let q3Index := 3 * sortedValues.length / 4
    let q1 := sortedValues.getD q1Index 0
    let q3 := sortedValues.getD q3Index 0
    let iqr := q3 - q1
    let lowerBound := q1 - threshold * iqr
    let upperBound := q3 + threshold * iqr
    (values.filter fun value => !(decide (value < lowerBound) || decide (upperBound < value)),
     values.filter fun value => decide (value < lowerBound) || decide (upperBound < value))

/-- The duration values extracted by `calculateProcessDuration`. -/
def durationsOf (env : JSEnv) (data : List Row) (durationField : String) : List ℝ :=
  numericValues env data durationField

/-- The duration list actually used for the statistics: outlier-cleaned when
outlier detection is enabled. -/
noncomputable def cleanedDurationsOf (opts : Options) (env : JSEnv)
    (data : List Row) (durationField : String) : List ℝ :=
  let durations := durationsOf env data durationField
  if opts.outlierDetection then
    (detectOutliers durations (orDefault opts.outlierThreshold 1.5)).1
  else durations

/-- The outlier list reported by `calculateProcessDuration`. -/
noncomputable def reportedOutliersOf (opts : Options) (env : JSEnv)
    (data : List Row) (durationField : String) : List ℝ :=
  let durations := durationsOf env data durationField
  if opts.outlierDetection then
    (detectOutliers durations (orDefault opts.outlierThreshold 1.5)).2
  else []

/-- `calculateProcessDuration`: numeric extraction (non-numbers silently
dropped), optional outlier stripping, statistics on the cleaned list,
`sampleSize` = count before outlier removal; all-zero result when no valid
numeric value exists. -/
noncomputable def calculateProcessDuration (opts : Options) (env : JSEnv)
    (data : List Row) (durationField : String) : ProcessDurationResult :=
  let durations := durationsOf env data durationField
  if durations.length = 0 then
    { average := 0, median := 0, min := 0, max := 0, stdDev := 0,
      confidenceInterval := (0, 0), outliers := [], sampleSize := 0 }
  else
    let cleanedDurations := cleanedDurationsOf opts env data durationField
    let outliers := reportedOutliersOf opts env data durationField
    { average := calculateMean cleanedDurations,
      median := calculateMedian cleanedDurations,
      min := jsMin cleanedDurations,
      max := jsMax cleanedDurations,
      stdDev := calculateStandardDeviation cleanedDurations,
      confidenceInterval :=
        calculateConfidenceIntervalForMean cleanedDurations (orDefault opts.confidenceLevel 0.95),
      outliers := outliers,
      sampleSize := durations.length }

/-- The success predicate of `calculateRFT`: dispatch on the runtime type of
`successValue` (`typeof`), i.e. on the `Scalar` constructor. -/
def isSuccess (env : JSEnv) (item : Row) (successField : String)
    (successValue : Scalar) : Bool :=
  match successValue with
  | .bool b => jsTruthy (item.getF successField) == b
  | .str s => (jsToString env (item.getF successField)).toLower == s.toLower
  | _ => item.getF successField == successValue

/-- The success count of `calculateRFT`. -/
def successCountOf (env : JSEnv) (data : List Row) (successField : String)
    (successValue : Scalar) : ℕ :=
  (data.filter fun item => isSuccess env item successField successValue).length

/-- `calculateRFT`: success rate with Wilson confidence interval. -/
noncomputable def calculateRFT (opts : Options) (env : JSEnv) (data : List Row)
    (successField : String) (successValue : Scalar) : RFTResult :=
  let totalCount := data.length
  let successCount := successCountOf env data successField successValue
  let rftRate : ℝ := if 0 < totalCount then (successCount : ℝ) / (totalCount : ℝ) else 0
  { rate := rftRate,
    confidenceInterval :=
      calculateWilsonInterval successCount totalCount (orDefault opts.confidenceLevel 0.95),
    sampleSize := totalCount }

/-- `calculateLinearRegression` (ordinary least squares).  Note: the only
guarded degenerate cases are mismatched lengths and empty input; a zero
`sumXX` is **not** special-cased (`slope = sumXY / sumXX` divides by zero —
`NaN` in JS, `0` under the real-division convention used here). -/
noncomputable def calculateLinearRegression (x y : List ℝ) : RegressionResult :=
  if x.length ≠ y.length ∨ x.length = 0 then { slope := 0, intercept := 0, rSquared := 0 }
  else
    let xMean := calculateMean x
    let yMean := calculateMean y
    let sumXY := ((x.zip y).map fun p => (p.1 - xMean) * (p.2 - yMean)).sum
    let sumXX := ((x.zip y).map fun p => (p.1 - xMean) * (p.1 - xMean)).sum
    let sumYY := ((x.zip y).map fun p => (p.2 - yMean) * (p.2 - yMean)).sum
    let slope := sumXY / sumXX
    let intercept := yMean - slope * xMean
    let rSquared := sumXY ^ 2 / (sumXX * sumYY)
    { slope := slope, intercept := intercept, rSquared := rSquared }

/-- `tDistPValue`: normal tail doubling for `df > 30`; for smaller `df` the
source's closed-form approximation, scaled by `1 − 1/(4·df)` and doubled. -/
noncomputable def tDistPValue (t : ℝ) (df : ℕ) : ℝ :=
  if 30 < df then 2 * (1 - normalCDF t)
  else
    let x := (df : ℝ) / (df + t * t)
    let p := Real.sqrt (1 - x) * (0.5 + 0.3989422804 * Real.exp (-t * t / 2))
    2 * (p * (1 - 1 / (4 * df)))

end KPICalculator

/-- The time-sort key used when ordering records:
`new Date(item[timeField]).getTime()`.  An invalid date (JS `NaN`, over
which the engine's comparator behaviour is unspecified) is modelled as
key `0`. -/
def timeKey (env : JSEnv) (timeField : String) (r : Row) : ℚ :=
  (env.dateNum (r.getF timeField)).getD 0

/-- Records sorted ascending by parsed time (JS `Array.prototype.sort` is
stable; so is `List.insertionSort`). -/
def sortByTime (env : JSEnv) (timeField : String) (data : List Row) : List Row :=
  data.insertionSort fun a b => timeKey env timeField a ≤ timeKey env timeField b

/-- First-occurrence list of group keys, modelling iteration over the
accumulator object built by `data.forEach(...)` (JS string keys enumerate
in insertion order; the special ordering of array-index-like keys is not
modelled — keys are treated as opaque strings). -/
def groupKeys (env : JSEnv) (data : List Row) (f : String) : List String :=
  data.foldl
    (fun ks r =>
      let k := jsKeyOr env (r.getF f) "Unknown"
      if k ∈ ks then ks else ks ++ [k]) []

/-- The records collected under one group key. -/
def groupItems (env : JSEnv) (data : List Row) (f : String) (k : String) : List Row :=
  data.filter fun r => jsKeyOr env (r.getF f) "Unknown" == k

namespace KPICalculator

/-- Per-period statistics produced by `identifyTrends`. -/
structure PeriodStat where
  period : ℕ
  average : ℝ
  stdDev : ℝ
  sampleSize : ℕ

/-- Result of `identifyTrends`.  The source returns
`{trend: 'none', significance: 0, periods: []}` when no numeric value
exists (modelled by `insufficient`) and otherwise an object with the seven
fields of the `res` constructor. -/
inductive TrendResult where
  | insufficient
  | res (trend : String) (slope : ℝ) (intercept : ℝ) (rSquared : ℝ)
      (significant : Prop) (pValue : ℝ) (periods : List PeriodStat)

/-- The value series analysed by `identifyTrends`: time-sorted records,
numeric values of `valueField`, non-numbers dropped. -/
def trendValues (env : JSEnv) (data : List Row) (timeField valueField : String) :
    List ℝ :=
  numericValues env (sortByTime env timeField data) valueField

/-- The contiguous period chunks of `identifyTrends`
(`values.slice(i*periodSize, …)`, last chunk absorbing the remainder). -/
def trendPeriodValues (values : List ℝ) (periods : ℕ) : List (List ℝ) :=
  let periodSize := max 1 (values.length / periods)
  (List.range periods).map fun i =>
    let start := i * periodSize
    let stop := if i = periods - 1 then values.length else (i + 1) * periodSize
    (values.take stop).drop start

/-- Per-period statistics of `identifyTrends`. -/
noncomputable def trendPeriodStats (values : List ℝ) (periods : ℕ) : List PeriodStat :=
  mapWithIdx (fun index periodData =>
    { period := index + 1,
      average := calculateMean periodData,
      stdDev := calculateStandardDeviation periodData,
      sampleSize := periodData.length }) 0 (trendPeriodValues values periods)

/-- Regression x-values of `identifyTrends` (period indices 1..periods). -/
noncomputable def trendXs (values : List ℝ) (periods : ℕ) : List ℝ :=
  mapWithIdx (fun i _ => (i : ℝ) + 1) 0 (trendPeriodStats values periods)

/-- Regression y-values of `identifyTrends` (period means). -/
noncomputable def trendYs (values : List ℝ) (periods : ℕ) : List ℝ :=
  (trendPeriodStats values periods).map (·.average)

/-- The regression of period index against period mean in `identifyTrends`. -/
noncomputable def trendRegression (values : List ℝ) (periods : ℕ) : RegressionResult :=
  calculateLinearRegression (trendXs values periods) (trendYs values periods)

/-- The slope-significance p-value of `identifyTrends`: t-statistic of the
slope against the residual standard error, `df = periods − 2`. -/
noncomputable def trendPValue (values : List ℝ) (periods : ℕ) : ℝ :=
  let xValues := trendXs values periods
  let yValues := trendYs values periods
  let regression := trendRegression values periods
  let n : ℝ := (periods : ℝ)
  let xMean := calculateMean xValues
  let sumSquaredX := (xValues.map fun x => (x - xMean) ^ 2).sum
  let residuals :=
    (xValues.zip yValues).map fun p => p.2 - (regression.slope * p.1 + regression.intercept)
  let residualSumSquares := (residuals.map fun r => r * r).sum
  let standardError := Real.sqrt (residualSumSquares / (n - 2))
  let slopeStandardError := standardError / Real.sqrt sumSquaredX
  let tStatistic := regression.slope / slopeStandardError
  tDistPValue |tStatistic| (periods - 2)

/-- `identifyTrends`: sort by time, split into `periods` chunks, regress the
period means, classify the slope sign, and test significance against the
hard-coded literal `0.05` (the class has no `significanceThreshold`
option). -/
noncomputable def identifyTrends (env : JSEnv) (data : List Row)
    (timeField valueField : String) (periods : ℕ) : TrendResult :=
  let values := trendValues env data timeField valueField
  if values.length = 0 then .insufficient
  else
    let regression := trendRegression values periods
    let pValue := trendPValue values periods
    .res
      (if 0 < regression.slope then "increasing"
       else if regression.slope < 0 then "decreasing" else "stable")
      regression.slope regression.intercept regression.rSquared
      (pValue < 0.05) pValue (trendPeriodStats values periods)

end KPICalculator

namespace ProcessAnalytics

/-- Resolved `ProcessAnalyticsOptions`. -/
structure Options where
  confidenceLevel : ℝ := 0.95
  significanceThreshold : ℝ := 0.05
  minCorrelationStrength : ℝ := 0.3
  predictionHorizon : ℝ := 3

structure CorrelationResult where
  parameter1 : String
  parameter2 : String
  correlationCoefficient : ℝ
  pValue : ℝ
  significant : Bool
  sampleSize : ℕ

/-- One element of a pattern's `supportingData` array (the source stores a
pattern-type-specific plain object). -/
inductive SupportingDatum where
  | cyclicalData (cycleLength : ℕ) (autocorrelation : ℝ)
  | trendData (slope : ℝ) (rSquared : ℝ) (pValue : ℝ) (trendStrength : ℝ)
  | stepChangeData (changePoint : ℤ) (beforeMean : ℝ) (afterMean : ℝ)
      (relativeChange : ℝ) (pValue : ℝ)

structure PatternRecognitionResult where
  patternType : String
  description : String
  affectedParameters : List String
  confidence : ℝ
  supportingData : List SupportingDatum

structure PredictionResult where
  parameter : String
  currentValue : ℝ
  predictedValue : ℝ
  predictedChange : ℝ
  predictedChangePercent : ℝ
  confidenceInterval : ℝ × ℝ
  predictionHorizon : String
  reliability : ℝ

/-- `ProcessAnalytics.calculateMean` (duplicate of the KPI calculator's). -/
noncomputable def calculateMean (values : List ℝ) : ℝ :=
  if values.length = 0 then 0 else values.sum / values.length

/-- `ProcessAnalytics.calculateStandardDeviation`: the sample standard
deviation computed directly (`0` for `n ≤ 1`). -/
noncomputable def calculateStandardDeviation (values : List ℝ) : ℝ :=
  if values.length ≤ 1 then 0
  else
    let mean := calculateMean values
    Real.sqrt (((values.map fun value => (value - mean) ^ 2).sum) / (values.length - 1))

/-- `ProcessAnalytics.normalCDF` (textual duplicate of
`KPICalculator.normalCDF`). -/
noncomputable def normalCDF (x : ℝ) : ℝ :=
  let t := 1 / (1 + 0.2316419 * |x|)
  let d := 0.3989423 * Real.exp (-x * x / 2)
  let p := d * t * (0.3193815 + t * (-0.3565638 + t * (1.781478 + t * (-1.821256 + t * 1.330274))))
  if 0 < x then 1 - p else p

/-- `ProcessAnalytics.tDistPValue` (textual duplicate of
`KPICalculator.tDistPValue`). -/
noncomputable def tDistPValue (t : ℝ) (df : ℕ) : ℝ :=
  if 30 < df then 2 * (1 - normalCDF t)
  else
    let x := (df : ℝ) / (df + t * t)
    let p := Real.sqrt (1 - x) * (0.5 + 0.3989422804 * Real.exp (-t * t / 2))
    2 * (p * (1 - 1 / (4 * df)))

/-- `getTValue`: the source's crude t-table (z-approximation with linear
interpolation for `df > 30`, literal table rows below, default `2`). -/
noncomputable def getTValue (degreesOfFreedom : ℕ) (confidenceLevel : ℝ) : ℝ :=
  if 30 < degreesOfFreedom then
    if confidenceLevel = 0.90 then 1.645
    else if confidenceLevel = 0.95 then 1.96
    else if confidenceLevel = 0.99 then 2.576
    else if 0.90 < confidenceLevel ∧ confidenceLevel < 0.95 then
      1.645 + (1.96 - 1.645) * ((confidenceLevel - 0.90) / 0.05)
    else if 0.95 < confidenceLevel ∧ confidenceLevel < 0.99 then
      1.96 + (2.576 - 1.96) * ((confidenceLevel - 0.95) / 0.04)
    else 2
  else if confidenceLevel = 0.95 then
    if degreesOfFreedom = 1 then 12.71
    else if degreesOfFreedom = 2 then 4.30
    else if degreesOfFreedom = 3 then 3.18
    else if degreesOfFreedom = 4 then 2.78
    else if degreesOfFreedom = 5 then 2.57
    else if degreesOfFreedom ≤ 10 then 2.23
    else if degreesOfFreedom ≤ 20 then 2.09
    else 2.04
  else if confidenceLevel = 0.99 then
    if degreesOfFreedom = 1 then 63.66
    else if degreesOfFreedom = 2 then 9.92
    else if degreesOfFreedom = 3 then 5.84
    else if degreesOfFreedom = 4 then 4.60
    else if degreesOfFreedom = 5 then 4.03
    else if degreesOfFreedom ≤ 10 then 3.17
    else if degreesOfFreedom ≤ 20 then 2.85
    else 2.75
  else 2

/-- `ProcessAnalytics.calculateConfidenceInterval`: t-based interval with
`df = n − 1`; `(0, 0)` for `n ≤ 1`. -/
noncomputable def calculateConfidenceInterval (values : List ℝ)
    (confidenceLevel : ℝ) : ℝ × ℝ :=
  if values.length ≤ 1 then (0, 0)
  else
    let mean := calculateMean values
    let stdDev := calculateStandardDeviation values
    let n : ℝ := values.length
    let tValue := getTValue (values.length - 1) confidenceLevel
    let marginOfError := tValue * (stdDev / Real.sqrt n)
    (mean - marginOfError, mean + marginOfError)

/-- `calculatePearsonCorrelation`: `0` for fewer than two pairs or a zero
denominator. -/
noncomputable def calculatePearsonCorrelation (pairs : List (ℝ × ℝ)) : ℝ :=
  if pairs.length < 2 then 0
  else
    let n : ℝ := pairs.length
    let meanX := (pairs.map (·.1)).sum / n
    let meanY := (pairs.map (·.2)).sum / n
    let numerator := (pairs.map fun p => (p.1 - meanX) * (p.2 - meanY)).sum
    let denominatorX := (pairs.map fun p => (p.1 - meanX) * (p.1 - meanX)).sum
    let denominatorY := (pairs.map fun p => (p.2 - meanY) * (p.2 - meanY)).sum
    let denominator := Real.sqrt (denominatorX * denominatorY)
    if denominator = 0 then 0 else numerator / denominator

/-- `calculateCorrelationPValue`: `1` for `n < 3`, otherwise the p-value of
the t-statistic `r·√((n−2)/(1−r²))`. -/
noncomputable def calculateCorrelationPValue (r : ℝ) (n : ℕ) : ℝ :=
  if n < 3 then 1
  else
    let tStat := r * Real.sqrt (((n : ℝ) - 2) / (1 - r * r))
    tDistPValue |tStat| (n - 2)

/-- `ProcessAnalytics.calculateLinearRegression` (textual duplicate of
`KPICalculator.calculateLinearRegression`). -/
noncomputable def calculateLinearRegression (x y : List ℝ) :
    KPICalculator.RegressionResult :=
  if x.length ≠ y.length ∨ x.length = 0 then { slope := 0, intercept := 0, rSquared := 0 }
  else
    let xMean := calculateMean x
    let yMean := calculateMean y
    let sumXY := ((x.zip y).map fun p => (p.1 - xMean) * (p.2 - yMean)).sum
    let sumXX := ((x.zip y).map fun p => (p.1 - xMean) * (p.1 - xMean)).sum
    let sumYY := ((x.zip y).map fun p => (p.2 - yMean) * (p.2 - yMean)).sum
    let slope := sumXY / sumXX
    let intercept := yMean - slope * xMean
    let rSquared := sumXY ^ 2 / (sumXX * sumYY)
    { slope := slope, intercept := intercept, rSquared := rSquared }

/-- `calculatePredictionInterval`: t-based prediction interval with the
leverage term `1 + 1/n + (x* − x̄)²/Σ(x − x̄)²`; `(0, 0)` when fewer than
three points or mismatched lengths. -/
noncomputable def calculatePredictionInterval (x y : List ℝ)
    (regression : KPICalculator.RegressionResult) (predictX confidenceLevel : ℝ) :
    ℝ × ℝ :=
  if x.length ≠ y.length ∨ x.length < 3 then (0, 0)
  else
    let n : ℝ := x.length
    let xMean := calculateMean x
    let predictedY := regression.slope * predictX + regression.intercept
    let residuals := (x.zip y).map fun p => p.2 - (regression.slope * p.1 + regression.intercept)
    let residualSumSquares := (residuals.map fun r => r * r).sum
    let standardError := Real.sqrt (residualSumSquares / (n - 2))
    let sumSquaredX := (x.map fun xValue => (xValue - xMean) ^ 2).sum
    let tValue := getTValue (x.length - 2) confidenceLevel
    let predictionWidth :=
      tValue * standardError * Real.sqrt (1 + 1 / n + (predictX - xMean) ^ 2 / sumSquaredX)
    (predictedY - predictionWidth, predictedY + predictionWidth)

/-- The ordered parameter pairs `(i, j)` with `i < j` visited by the nested
loops of `analyzeCorrelations`. -/
def paramPairs : List String → List (String × String)
  | [] => []
  | x :: rest => (rest.map fun y => (x, y)) ++ paramPairs rest

/-- The numeric pair series for two parameters: rows where both values are
numeric. -/
def pairValues (env : JSEnv) (data : List Row) (param1 param2 : String) :
    List (ℝ × ℝ) :=
  data.filterMap fun item =>
    match toNumber env (item.getF param1), toNumber env (item.getF param2) with
    | some value1, some value2 => some ((value1 : ℝ), (value2 : ℝ))
    | _, _ => none

/-- `analyzeCorrelations`: Pearson correlation and p-value for every
unordered parameter pair with at least three complete rows; `significant`
iff `p < significanceThreshold` and `|r| ≥ minCorrelationStrength`; results
sorted by descending `|r|`. -/
noncomputable def analyzeCorrelations (env : JSEnv) (opts : Options)
    (data : List Row) (parameters : List String) : List CorrelationResult :=
  let results := (paramPairs parameters).filterMap fun pr =>
    let pairs := pairValues env data pr.1 pr.2
    if pairs.length < 3 then none
    else
      let correlation := calculatePearsonCorrelation pairs
      let pValue := calculateCorrelationPValue correlation pairs.length
      let significant :=
        decide (pValue < orDefault opts.significanceThreshold 0.05) &&
          decide (orDefault opts.minCorrelationStrength 0.3 ≤ |correlation|)
      some { parameter1 := pr.1, parameter2 := pr.2,
             correlationCoefficient := correlation, pValue := pValue,
             significant := significant, sampleSize := pairs.length }
  results.insertionSort fun a b => |b.correlationCoefficient| ≤ |a.correlationCoefficient|

/-- The autocorrelation sequence of `detectCyclicalPattern`
(lags `1 .. ⌊n/3⌋`, denominator summed over the same truncated range as the
numerator). -/
noncomputable def autocorrelations (values : List ℝ) : List ℝ :=
  let maxLag := values.length / 3
  (List.range' 1 maxLag).map fun lag =>
    let mean := calculateMean values
    let numerator :=
      ((List.range (values.length - lag)).map fun i =>
        (values.getD i 0 - mean) * (values.getD (i + lag) 0 - mean)).sum
    let denominator :=
      ((List.range (values.length - lag)).map fun i =>
        (values.getD i 0 - mean) ^ 2).sum
    numerator / denominator

/-- `detectCyclicalPattern`: requires `n ≥ 10`; reports the first
strict local autocorrelation peak above `0.3`. -/
noncomputable def detectCyclicalPattern (env : JSEnv) (sortedData : List Row)
    (parameter : String) : Option PatternRecognitionResult :=
  let values := numericValues env sortedData parameter
  if values.length < 10 then none
  else
    let auto := autocorrelations values
    let peaks := ((List.range' 1 (auto.length - 2)).filter fun i =>
      decide (auto.getD (i - 1) 0 < auto.getD i 0) &&
        decide (auto.getD (i + 1) 0 < auto.getD i 0) &&
        decide ((0.3 : ℝ) < auto.getD i 0)).map (· + 1)
    if peaks.isEmpty then none
    else
      let cycleLength := peaks.headD 0
      let confidence := min 1 (auto.getD (cycleLength - 1) 0 + 0.5)
      some { patternType := "cyclical",
             description := s!"Cyclical pattern detected in {parameter} with approximate cycle length of {cycleLength} data points",
             affectedParameters := [parameter],
             confidence := confidence,
             supportingData := [.cyclicalData cycleLength (auto.getD (cycleLength - 1) 0)] }

/-- The slope p-value used by `detectTrendPattern` (t-statistic of the OLS
slope on index-vs-value, `df = n − 2`). -/
noncomputable def trendPatternPValue (values : List ℝ) : ℝ :=
  let xValues := (List.range values.length).map fun i => (i : ℝ)
  let regression := calculateLinearRegression xValues values
  let n : ℝ := values.length
  let xMean := calculateMean xValues
  let sumSquaredX := (xValues.map fun x => (x - xMean) ^ 2).sum
  let residuals :=
    (xValues.zip values).map fun p => p.2 - (regression.slope * p.1 + regression.intercept)
  let residualSumSquares := (residuals.map fun r => r * r).sum
  let standardError := Real.sqrt (residualSumSquares / (n - 2))
  let slopeStandardError := standardError / Real.sqrt sumSquaredX
  let tStatistic := regression.slope / slopeStandardError
  tDistPValue |tStatistic| (values.length - 2)

/-- `detectTrendPattern`: requires `n ≥ 5`; rejects when the slope p-value
reaches `significanceThreshold` or the slope is below `0.01·mean`
(near-flat guard). -/
noncomputable def detectTrendPattern (env : JSEnv) (opts : Options)
    (sortedData : List Row) (parameter : String) :
    Option PatternRecognitionResult :=
  let values := numericValues env sortedData parameter
  if values.length < 5 then none
  else
    let xValues := (List.range values.length).map fun i => (i : ℝ)
    let regression := calculateLinearRegression xValues values
    let pValue := trendPatternPValue values
    if orDefault opts.significanceThreshold 0.05 ≤ pValue ∨
        |regression.slope| < 0.01 * calculateMean values then none
    else
      let trendDirection := if 0 < regression.slope then "Increasing" else "Decreasing"
      let trendStrength := |regression.slope| / calculateMean values
      let confidence := (1 - pValue) * regression.rSquared
      some { patternType := "trend",
             description := s!"{trendDirection} trend detected in {parameter}",
             affectedParameters := [parameter],
             confidence := confidence,
             supportingData :=
               [.trendData regression.slope regression.rSquared pValue trendStrength] }

/-- The change-point scan of `detectStepChangePattern`: every split point
`i ∈ [minSegmentSize, n − minSegmentSize]`, keeping the first split with
the strictly largest absolute mean difference (initial state `(-1, 0)`). -/
noncomputable def stepScan (values : List ℝ) (minSegmentSize : ℕ) : ℤ × ℝ :=
  (List.range' minSegmentSize (values.length + 1 - 2 * minSegmentSize)).foldl
    (fun acc i =>
      let segment1 := values.take i
      let segment2 := values.drop i
      let meanDifference := |calculateMean segment2 - calculateMean segment1|
      if acc.2 < meanDifference then ((i : ℤ), meanDifference) else acc)
    (-1, 0)

/-- `detectStepChangePattern`: requires `n ≥ 10`; minimum segment size
`max(3, ⌊n/10⌋)`; pooled-variance two-sample t-test on the winning split;
no pattern when `p ≥ significanceThreshold`. -/
noncomputable def detectStepChangePattern (env : JSEnv) (opts : Options)
    (sortedData : List Row) (parameter : String) :
    Option PatternRecognitionResult :=
  let values := numericValues env sortedData parameter
  if values.length < 10 then none
  else
    let minSegmentSize := max 3 (values.length / 10)
    let best := stepScan values minSegmentSize
    let bestChangePoint := best.1
    if bestChangePoint = -1 then none
    else
      let segment1 := values.take bestChangePoint.toNat
      let segment2 := values.drop bestChangePoint.toNat
      let mean1 := calculateMean segment1
      let mean2 := calculateMean segment2
      let stdDev1 := calculateStandardDeviation segment1
      let stdDev2 := calculateStandardDeviation segment2
      let pooledVariance :=
        (((segment1.length : ℝ) - 1) * stdDev1 ^ 2 + ((segment2.length : ℝ) - 1) * stdDev2 ^ 2) /
          ((segment1.length : ℝ) + (segment2.length : ℝ) - 2)
      let standardError :=
        Real.sqrt (pooledVariance * (1 / (segment1.length : ℝ) + 1 / (segment2.length : ℝ)))
      let tStat := |mean2 - mean1| / standardError
      let df := segment1.length + segment2.length - 2
      let pValue := tDistPValue tStat df
      if orDefault opts.significanceThreshold 0.05 ≤ pValue then none
      else
        let relativeChange := (mean2 - mean1) / mean1
        let confidence := (1 - pValue) * min 1 (|relativeChange| * 5)
        some { patternType := "step_change",
               description := s!"Step change detected in {parameter} at data point {bestChangePoint}",
               affectedParameters := [parameter],
               confidence := confidence,
               supportingData :=
                 [.stepChangeData bestChangePoint mean1 mean2 (relativeChange * 100) pValue] }

/-- `recognizePatterns`: cyclical, trend and step-change detectors per
parameter over time-sorted data, followed by one pattern per significant
correlation pair. -/
noncomputable def recognizePatterns (env : JSEnv) (opts : Options)
    (data : List Row) (timeField : String) (parameters : List String) :
    List PatternRecognitionResult :=
  let sortedData := sortByTime env timeField data
  let cyclicalResults := parameters.filterMap fun param =>
    detectCyclicalPattern env sortedData param
  let trendResults := parameters.filterMap fun param =>
    detectTrendPattern env opts sortedData param
  let stepResults := parameters.filterMap fun param =>
    detectStepChangePattern env opts sortedData param
  let correlations := analyzeCorrelations env opts data parameters
  let significantCorrelations := correlations.filter (·.significant)
  let correlationResults := significantCorrelations.map fun corr =>
    let sign := if 0 < corr.correlationCoefficient then "positive" else "negative"
    let p1 := corr.parameter1
    let p2 := corr.parameter2
    { patternType := "correlation",
      description := s!"Strong {sign} correlation between {p1} and {p2}",
      affectedParameters := [corr.parameter1, corr.parameter2],
      confidence := 1 - corr.pValue,
      supportingData := [] }
  cyclicalResults ++ trendResults ++ stepResults ++ correlationResults

/-- The `(timestamp, value)` series of `generatePredictions` for one
parameter: rows whose value is numeric and whose timestamp parses. -/
def predictionSeries (env : JSEnv) (sortedData : List Row)
    (timeField parameter : String) : List (ℚ × ℚ) :=
  sortedData.filterMap fun item =>
    match env.dateNum (item.getF timeField), toNumber env (item.getF parameter) with
    | some timestamp, some value => some (timestamp, value)
    | _, _ => none

/-- `generatePredictions`: per parameter, OLS over day offsets, linear
extrapolation by `predictionHorizon` average spacings, t-based prediction
interval, `reliability = r²·(1 − 1/√n)`; parameters with fewer than five
complete points are skipped. -/
noncomputable def generatePredictions (env : JSEnv) (opts : Options)
    (data : List Row) (timeField : String) (parameters : List String) :
    List PredictionResult :=
  let sortedData := sortByTime env timeField data
  parameters.filterMap fun param =>
    let timeSeriesData := predictionSeries env sortedData timeField param
    if timeSeriesData.length < 5 then none
    else
      let currentValue : ℝ := ((timeSeriesData.getLastD (0, 0)).2 : ℝ)
      let firstTimestamp := (timeSeriesData.headD (0, 0)).1
      let xValues : List ℝ := timeSeriesData.map fun p =>
        ((p.1 : ℝ) - (firstTimestamp : ℝ)) / (1000 * 60 * 60 * 24)
      let yValues : List ℝ := timeSeriesData.map fun p => (p.2 : ℝ)
      let regression := calculateLinearRegression xValues yValues
      let predictionHorizonDays :=
        orDefault opts.predictionHorizon 3 * (xValues.getLastD 0 - xValues.headD 0) /
          (xValues.length : ℝ)
      let lastX := xValues.getLastD 0
      let predictX := lastX + predictionHorizonDays
      let predictedValue := regression.slope * predictX + regression.intercept
      let predictionInterval :=
        calculatePredictionInterval xValues yValues regression predictX
          (orDefault opts.confidenceLevel 0.95)
      let predictedChange := predictedValue - currentValue
      let predictedChangePercent := predictedChange / currentValue * 100
      let reliability :=
        regression.rSquared * (1 - 1 / Real.sqrt (timeSeriesData.length : ℝ))
      let roundedHorizon := round predictionHorizonDays
      some { parameter := param,
             currentValue := currentValue,
             predictedValue := predictedValue,
             predictedChange := predictedChange,
             predictedChangePercent := predictedChangePercent,
             confidenceInterval := predictionInterval,
             predictionHorizon := s!"{roundedHorizon} days",
             reliability := reliability }

/-- A ranked group entry of `identifyBestPerformers` (`rank`,
`significantlyBetterCount` and `percentileBetter` are filled in by the
final mapping step; the source spreads them onto the per-group stats). -/
structure BestPerformerEntry where
  processType : String
  average : ℝ
  stdDev : ℝ
  confidenceInterval : ℝ × ℝ
  sampleSize : ℕ
  rank : ℕ := 0
  significantlyBetterCount : ℕ := 0
  percentileBetter : ℝ := 0

/-- The per-group statistics of `identifyBestPerformers`: groups with fewer
than three numeric performance values yield `null` and are filtered out
(`.filter(Boolean)`), i.e. excluded rather than zero-filled. -/
noncomputable def performerEntries (env : JSEnv) (opts : Options)
    (data : List Row) (processTypeField performanceField : String) :
    List BestPerformerEntry :=
  (groupKeys env data processTypeField).filterMap fun processType =>
    let items := groupItems env data processTypeField processType
    let performanceValues := numericValues env items performanceField
    if performanceValues.length < 3 then none
    else some
      { processType := processType,
        average := calculateMean performanceValues,
        stdDev := calculateStandardDeviation performanceValues,
        confidenceInterval :=
          calculateConfidenceInterval performanceValues (orDefault opts.confidenceLevel 0.95),
        sampleSize := performanceValues.length }

/-- The comparator of `identifyBestPerformers`' sort: descending mean when
`higherIsBetter`, ascending otherwise. -/
def perfLe (higherIsBetter : Bool) (a b : BestPerformerEntry) : Prop :=
  if higherIsBetter then b.average ≤ a.average else a.average ≤ b.average

noncomputable instance (higherIsBetter : Bool) : DecidableRel (perfLe higherIsBetter) :=
  fun a b => by unfold perfLe; infer_instance

/-- The `{better, significant}` outcome of one pairwise comparison in
`identifyBestPerformers` (pooled-variance two-sample t-test, run only in
the winning direction). -/
noncomputable def comparisonOutcome (opts : Options) (higherIsBetter : Bool)
    (process otherProcess : BestPerformerEntry) : Bool × Bool :=
  let diff := process.average - otherProcess.average
  let direction : Bool := if higherIsBetter then decide (0 < diff) else decide (diff < 0)
  if direction then
    let pooledVariance :=
      (((process.sampleSize : ℝ) - 1) * process.stdDev ^ 2 +
          ((otherProcess.sampleSize : ℝ) - 1) * otherProcess.stdDev ^ 2) /
        ((process.sampleSize : ℝ) + (otherProcess.sampleSize : ℝ) - 2)
    let standardError :=
      Real.sqrt (pooledVariance * (1 / (process.sampleSize : ℝ) + 1 / (otherProcess.sampleSize : ℝ)))
    let tStat := |diff| / standardError
    let df := process.sampleSize + otherProcess.sampleSize - 2
    let pValue := tDistPValue tStat df
    (true, decide (pValue < orDefault opts.significanceThreshold 0.05))
  else (false, false)

/-- The sorted eligible groups of `identifyBestPerformers`. -/
noncomputable def sortedPerformerEntries (env : JSEnv) (opts : Options)
    (data : List Row) (processTypeField performanceField : String)
    (higherIsBetter : Bool) : List BestPerformerEntry :=
  (performerEntries env opts data processTypeField performanceField).insertionSort
    (perfLe higherIsBetter)

/-- `identifyBestPerformers`: group, exclude small groups, sort by mean in
the requested direction, then attach `rank` (1-based sorted position),
`significantlyBetterCount` (pairwise t-tests against every other group) and
`percentileBetter = count / max(1, total − 1) · 100`. -/
noncomputable def identifyBestPerformers (env : JSEnv) (opts : Options)
    (data : List Row) (processTypeField performanceField : String)
    (higherIsBetter : Bool) : List BestPerformerEntry :=
  let sortedPerformance :=
    sortedPerformerEntries env opts data processTypeField performanceField higherIsBetter
  mapWithIdx (fun index process =>
    let others := sortedPerformance.eraseIdx index
    let significantlyBetterCount :=
      ((others.map fun otherProcess => comparisonOutcome opts higherIsBetter process otherProcess).filter
        fun result => result.1 && result.2).length
    { process with
      rank := index + 1,
      significantlyBetterCount := significantlyBetterCount,
      percentileBetter :=
        (significantlyBetterCount : ℝ) / ((max 1 (sortedPerformance.length - 1) : ℕ) : ℝ) * 100 })
    0 sortedPerformance

end ProcessAnalytics

namespace AnalyticsService

/-- Resolved `AnalyticsOptions` (constructor defaults merged in). -/
structure Options where
  confidenceLevel : ℝ := 0.95
  outlierDetection : Bool := true
  outlierThreshold : ℝ := 1.5
  significanceThreshold : ℝ := 0.05
  minCorrelationStrength : ℝ := 0.3
  predictionHorizon : ℝ := 3

/-- The options the `AnalyticsService` constructor forwards to its
`KPICalculator`. -/
def kpiOptions (o : Options) : KPICalculator.Options :=
  { confidenceLevel := o.confidenceLevel,
    outlierDetection := o.outlierDetection,
    outlierThreshold := o.outlierThreshold }

/-- The options the `AnalyticsService` constructor forwards to its
`ProcessAnalytics`. -/
def paOptions (o : Options) : ProcessAnalytics.Options :=
  { confidenceLevel := o.confidenceLevel,
    significanceThreshold := o.significanceThreshold,
    minCorrelationStrength := o.minCorrelationStrength,
    predictionHorizon := o.predictionHorizon }

/-- The field-role configuration consumed by
`generateDashboardAnalytics`. -/
structure Config where
  processTypeField : String
  successField : String
  successValue : Scalar
  durationField : String
  timeField : String
  parameterFields : List String

structure ProcessPerformanceResult where
  processType : String
  rft : KPICalculator.RFTResult
  duration : KPICalculator.ProcessDurationResult
  rank : ℕ
  significantlyBetter : Bool
  percentileBetter : ℝ

structure AnalyticsDashboardData where
  overallRFT : KPICalculator.RFTResult
  processPerformance : List ProcessPerformanceResult
  trends : KPICalculator.TrendResult
  patterns : List ProcessAnalytics.PatternRecognitionResult
  correlations : List ProcessAnalytics.CorrelationResult
  predictions : List ProcessAnalytics.PredictionResult

/-- `generateDashboardAnalytics`: overall RFT, per-process-type RFT and
duration for groups with at least three rows, rank / significance merged in
from `identifyBestPerformers` (whole data set, success field, higher is
better), performance sorted ascending by rank, plus trends, patterns,
correlations and predictions. -/
noncomputable def generateDashboardAnalytics (env : JSEnv) (opts : Options)
    (data : List Row) (config : Config) : AnalyticsDashboardData :=
  let kOpts := kpiOptions opts
  let pOpts := paOptions opts
  let overallRFT :=
    KPICalculator.calculateRFT kOpts env data config.successField config.successValue
  let processPerformance : List ProcessPerformanceResult :=
    (groupKeys env data config.processTypeField).filterMap fun processType =>
      let items := groupItems env data config.processTypeField processType
      if items.length < 3 then none
      else some
        { processType := processType,
          rft := KPICalculator.calculateRFT kOpts env items config.successField config.successValue,
          duration := KPICalculator.calculateProcessDuration kOpts env items config.durationField,
          rank := 0,
          significantlyBetter := false,
          percentileBetter := 0 }
  let bestPerformers :=
    ProcessAnalytics.identifyBestPerformers env pOpts data config.processTypeField
      config.successField true
  let updatedPerformance := processPerformance.map fun process =>
    match bestPerformers.find? (fun bp => bp.processType == process.processType) with
    | some bestPerformer =>
        { process with
          rank := bestPerformer.rank,
          significantlyBetter := decide (0 < bestPerformer.significantlyBetterCount),
          percentileBetter := bestPerformer.percentileBetter }
    | none => process
  { overallRFT := overallRFT,
    processPerformance := updatedPerformance.insertionSort fun a b => a.rank ≤ b.rank,
    trends := KPICalculator.identifyTrends env data config.timeField config.successField 5,
    patterns :=
      ProcessAnalytics.recognizePatterns env pOpts data config.timeField config.parameterFields,
    correlations := ProcessAnalytics.analyzeCorrelations env pOpts data config.parameterFields,
    predictions :=
      ProcessAnalytics.generatePredictions env pOpts data config.timeField config.parameterFields }

end AnalyticsService

/-! ### Concrete inputs used by witnesses and counterexamples -/

/-- A trivial host environment (string rendering and parsing are never hit
by the concrete inputs below, which use boolean and numeric scalars only). -/
def trivialEnv : JSEnv := ⟨fun _ => "", fun _ => none, fun _ => none⟩

/-- Scenario A of the spec: five batches whose `Success` field is
`[true, true, false, true, true]`. -/
def scenarioA : List Row :=
  [[("Success", Scalar.bool true)], [("Success", Scalar.bool true)],
   [("Success", Scalar.bool false)], [("Success", Scalar.bool true)],
   [("Success", Scalar.bool true)]]

/-- A 20-point series matching Scenario D: the first ten values lie in
`10 ± 0.5` (mean exactly 10), the last ten in `20 ± 0.5` (mean exactly
20). -/
def stepSeries : List ℚ :=
  [9.5, 10.5, 10, 10, 10, 10, 10, 10, 10, 10,
   19.5, 20.5, 20, 20, 20, 20, 20, 20, 20, 20]

/-- Scenario D records (already time-ordered) carrying `stepSeries` in
parameter field `"p"`. -/
def stepData : List Row := stepSeries.map fun q => [("p", Scalar.num q)]

/-- The Scenario D series as a list of reals (the numeric extraction of
`stepData`). -/
noncomputable def stepValsR : List ℝ :=
  [9.5, 10.5, 10, 10, 10, 10, 10, 10, 10, 10,
   19.5, 20.5, 20, 20, 20, 20, 20, 20, 20, 20]

/-- Three rows of one process type with equal performance values (witness
input for the ranking claim). -/
def rankData : List Row :=
  List.replicate 3 [("pt", Scalar.str "A"), ("v", Scalar.num 1)]

/-! ### Theorems -/

/-- Claim C9: the statistical helpers duplicated in `KPICalculator` and
`ProcessAnalytics` compute identical functions: the two `tDistPValue`s
agree at every t-statistic and degrees of freedom, and the two
`normalCDF`s agree at every argument. -/
theorem duplicated_helpers_agree :
    (∀ (t : ℝ) (df : ℕ),
        KPICalculator.tDistPValue t df = ProcessAnalytics.tDistPValue t df) ∧
    ∀ x : ℝ, KPICalculator.normalCDF x = ProcessAnalytics.normalCDF x :=
  ⟨fun _ _ => rfl, fun _ => rfl⟩

/-- Claim C8: `generateDashboardAnalytics` is deterministic — two calls
with identical host environment, options, records and field configuration
produce identical results (the embedding is a pure function of these
arguments; the source reads no clock, randomness or cross-call state). -/
theorem generateDashboardAnalytics_deterministic
    (env₁ env₂ : JSEnv) (o₁ o₂ : AnalyticsService.Options)
    (d₁ d₂ : List Row) (c₁ c₂ : AnalyticsService.Config)
    (henv : env₁ = env₂) (ho : o₁ = o₂) (hd : d₁ = d₂) (hc : c₁ = c₂) :
    AnalyticsService.generateDashboardAnalytics env₁ o₁ d₁ c₁ =
      AnalyticsService.generateDashboardAnalytics env₂ o₂ d₂ c₂ := by
  rw [henv, ho, hd, hc]

/-- Witness for C8 at a concrete input. -/
theorem generateDashboardAnalytics_deterministic_witness :
    (trivialEnv = trivialEnv ∧ ({} : AnalyticsService.Options) = {} ∧
      scenarioA = scenarioA ∧
      (⟨"pt", "Success", .bool true, "d", "t", []⟩ : AnalyticsService.Config) =
        ⟨"pt", "Success", .bool true, "d", "t", []⟩) ∧
    AnalyticsService.generateDashboardAnalytics trivialEnv {} scenarioA
        ⟨"pt", "Success", .bool true, "d", "t", []⟩ =
      AnalyticsService.generateDashboardAnalytics trivialEnv {} scenarioA
        ⟨"pt", "Success", .bool true, "d", "t", []⟩ :=
  ⟨⟨rfl, rfl, rfl, rfl⟩,
    generateDashboardAnalytics_deterministic trivialEnv trivialEnv {} {}
      scenarioA scenarioA _ _ rfl rfl rfl rfl⟩

/-- Claim C2: `calculateRFT` counts successes by the runtime type of
`successValue` — boolean values compare против the boolean coercion of the
field, strings compare case-insensitively on the stringified field, and
any other value compares by strict equality — and returns
`rate = successCount / total` (`0` when `total = 0`) with
`sampleSize = total`; on Scenario A the rate is `0.8` over a sample of 5. -/
theorem calculateRFT_spec :
    (∀ (env : JSEnv) (opts : KPICalculator.Options) (data : List Row)
        (sf : String) (sv : Scalar),
      (KPICalculator.calculateRFT opts env data sf sv).sampleSize = data.length ∧
      (KPICalculator.calculateRFT opts env data sf sv).rate =
        (if 0 < data.length then
          (KPICalculator.successCountOf env data sf sv : ℝ) / (data.length : ℝ) else 0) ∧
      (∀ b, KPICalculator.successCountOf env data sf (.bool b) =
        (data.filter fun item => jsTruthy (item.getF sf) == b).length) ∧
      (∀ s, KPICalculator.successCountOf env data sf (.str s) =
        (data.filter fun item =>
          (jsToString env (item.getF sf)).toLower == s.toLower).length) ∧
      (∀ q, KPICalculator.successCountOf env data sf (.num q) =
        (data.filter fun item => item.getF sf == Scalar.num q).length)) ∧
    (KPICalculator.calculateRFT {} trivialEnv scenarioA "Success" (.bool true)).rate = 0.8 ∧
    (KPICalculator.calculateRFT {} trivialEnv scenarioA "Success" (.bool true)).sampleSize = 5 := by
  refine ⟨fun env opts data sf sv => ⟨rfl, rfl, fun b => rfl, fun s => rfl, fun q => rfl⟩, ?_, rfl⟩
  have hcount : KPICalculator.successCountOf trivialEnv scenarioA "Success" (.bool true) = 4 := by
    decide
  show (if 0 < scenarioA.length then
      (KPICalculator.successCountOf trivialEnv scenarioA "Success" (.bool true) : ℝ) /
        (scenarioA.length : ℝ) else 0) = 0.8
  rw [hcount]
  norm_num [scenarioA]

/-- Claim C5: on any record list with at least one numeric value,
`identifyTrends` classifies the regression slope over the period means as
`"increasing"` when positive, `"decreasing"` when negative and `"stable"`
exactly at zero, and its `significant` flag is `pValue < 0.05` with the
literal constant `0.05` — independent of any configured
`significanceThreshold` (second conjunct: varying the service-level
threshold leaves the `trends` component unchanged). -/
theorem identifyTrends_classification (env : JSEnv) (data : List Row)
    (tf vf : String) (np : ℕ)
    (h : (KPICalculator.trendValues env data tf vf).length ≠ 0) :
    (KPICalculator.identifyTrends env data tf vf np =
      .res
        (if 0 < (KPICalculator.trendRegression (KPICalculator.trendValues env data tf vf) np).slope
         then "increasing"
         else if (KPICalculator.trendRegression (KPICalculator.trendValues env data tf vf) np).slope < 0
         then "decreasing" else "stable")
        (KPICalculator.trendRegression (KPICalculator.trendValues env data tf vf) np).slope
        (KPICalculator.trendRegression (KPICalculator.trendValues env data tf vf) np).intercept
        (KPICalculator.trendRegression (KPICalculator.trendValues env data tf vf) np).rSquared
        (KPICalculator.trendPValue (KPICalculator.trendValues env data tf vf) np < 0.05)
        (KPICalculator.trendPValue (KPICalculator.trendValues env data tf vf) np)
        (KPICalculator.trendPeriodStats (KPICalculator.trendValues env data tf vf) np)) ∧
    ∀ (opts : AnalyticsService.Options) (t₁ t₂ : ℝ) (cfg : AnalyticsService.Config),
      (AnalyticsService.generateDashboardAnalytics env
          {opts with significanceThreshold := t₁} data cfg).trends =
        (AnalyticsService.generateDashboardAnalytics env
          {opts with significanceThreshold := t₂} data cfg).trends := by
  constructor
  · unfold KPICalculator.identifyTrends
    rw [if_neg h]
  · intro opts t₁ t₂ cfg
    rfl

/-- Witness for C5 at a concrete one-record input. -/
theorem identifyTrends_classification_witness :
    ((KPICalculator.trendValues trivialEnv [[("t", Scalar.num 0), ("v", Scalar.num 1)]] "t" "v").length ≠ 0) ∧
    (KPICalculator.identifyTrends trivialEnv [[("t", Scalar.num 0), ("v", Scalar.num 1)]] "t" "v" 5 =
      .res
        (if 0 < (KPICalculator.trendRegression (KPICalculator.trendValues trivialEnv [[("t", Scalar.num 0), ("v", Scalar.num 1)]] "t" "v") 5).slope
         then "increasing"
         else if (KPICalculator.trendRegression (KPICalculator.trendValues trivialEnv [[("t", Scalar.num 0), ("v", Scalar.num 1)]] "t" "v") 5).slope < 0
         then "decreasing" else "stable")
        (KPICalculator.trendRegression (KPICalculator.trendValues trivialEnv [[("t", Scalar.num 0), ("v", Scalar.num 1)]] "t" "v") 5).slope
        (KPICalculator.trendRegression (KPICalculator.trendValues trivialEnv [[("t", Scalar.num 0), ("v", Scalar.num 1)]] "t" "v") 5).intercept
        (KPICalculator.trendRegression (KPICalculator.trendValues trivialEnv [[("t", Scalar.num 0), ("v", Scalar.num 1)]] "t" "v") 5).rSquared
        (KPICalculator.trendPValue (KPICalculator.trendValues trivialEnv [[("t", Scalar.num 0), ("v", Scalar.num 1)]] "t" "v") 5 < 0.05)
        (KPICalculator.trendPValue (KPICalculator.trendValues trivialEnv [[("t", Scalar.num 0), ("v", Scalar.num 1)]] "t" "v") 5)
        (KPICalculator.trendPeriodStats (KPICalculator.trendValues trivialEnv [[("t", Scalar.num 0), ("v", Scalar.num 1)]] "t" "v") 5)) :=
  have h : (KPICalculator.trendValues trivialEnv
      [[("t", Scalar.num 0), ("v", Scalar.num 1)]] "t" "v").length ≠ 0 := by decide
  ⟨h, (identifyTrends_classification trivialEnv
      [[("t", Scalar.num 0), ("v", Scalar.num 1)]] "t" "v" 5 h).1⟩

/-- Claim C3: `calculateProcessDuration` silently drops non-numeric values
(`durationsOf` is total); with outlier detection enabled, the average,
median, min, max, standard deviation and confidence interval are computed
over the outlier-cleaned list only, while `sampleSize` is the count of
valid numeric values before outlier removal; with no valid numeric value
it returns the all-zero result. -/
theorem calculateProcessDuration_spec (env : JSEnv)
    (opts : KPICalculator.Options) (data : List Row) (df : String)
    (hdet : opts.outlierDetection = true) :
    ((KPICalculator.durationsOf env data df).length = 0 →
      KPICalculator.calculateProcessDuration opts env data df =
        { average := 0, median := 0, min := 0, max := 0, stdDev := 0,
          confidenceInterval := (0, 0), outliers := [], sampleSize := 0 }) ∧
    ((KPICalculator.durationsOf env data df).length ≠ 0 →
      KPICalculator.calculateProcessDuration opts env data df =
        { average := KPICalculator.calculateMean
            (KPICalculator.detectOutliers (KPICalculator.durationsOf env data df)
              (orDefault opts.outlierThreshold 1.5)).1,
          median := KPICalculator.calculateMedian
            (KPICalculator.detectOutliers (KPICalculator.durationsOf env data df)
              (orDefault opts.outlierThreshold 1.5)).1,
          min := jsMin
            (KPICalculator.detectOutliers (KPICalculator.durationsOf env data df)
              (orDefault opts.outlierThreshold 1.5)).1,
          max := jsMax
            (KPICalculator.detectOutliers (KPICalculator.durationsOf env data df)
              (orDefault opts.outlierThreshold 1.5)).1,
          stdDev := KPICalculator.calculateStandardDeviation
            (KPICalculator.detectOutliers (KPICalculator.durationsOf env data df)
              (orDefault opts.outlierThreshold 1.5)).1,
          confidenceInterval := KPICalculator.calculateConfidenceIntervalForMean
            (KPICalculator.detectOutliers (KPICalculator.durationsOf env data df)
              (orDefault opts.outlierThreshold 1.5)).1
            (orDefault opts.confidenceLevel 0.95),
          outliers :=
            (KPICalculator.detectOutliers (KPICalculator.durationsOf env data df)
              (orDefault opts.outlierThreshold 1.5)).2,
          sampleSize := (KPICalculator.durationsOf env data df).length }) := by
  constructor
  · intro h
    unfold KPICalculator.calculateProcessDuration
    rw [if_pos h]
  · intro h
    unfold KPICalculator.calculateProcessDuration
    rw [if_neg h]
    simp only [KPICalculator.cleanedDurationsOf, KPICalculator.reportedOutliersOf, hdet, if_true]

/-- Witness for C3 at a concrete one-record input. -/
theorem calculateProcessDuration_spec_witness :
    ({} : KPICalculator.Options).outlierDetection = true ∧
    (((KPICalculator.durationsOf trivialEnv [[("d", Scalar.num 1)]] "d").length = 0 →
      KPICalculator.calculateProcessDuration {} trivialEnv [[("d", Scalar.num 1)]] "d" =
        { average := 0, median := 0, min := 0, max := 0, stdDev := 0,
          confidenceInterval := (0, 0), outliers := [], sampleSize := 0 }) ∧
    ((KPICalculator.durationsOf trivialEnv [[("d", Scalar.num 1)]] "d").length ≠ 0 →
      KPICalculator.calculateProcessDuration {} trivialEnv [[("d", Scalar.num 1)]] "d" =
        { average := KPICalculator.calculateMean
            (KPICalculator.detectOutliers (KPICalculator.durationsOf trivialEnv [[("d", Scalar.num 1)]] "d")
              (orDefault ({} : KPICalculator.Options).outlierThreshold 1.5)).1,
          median := KPICalculator.calculateMedian
            (KPICalculator.detectOutliers (KPICalculator.durationsOf trivialEnv [[("d", Scalar.num 1)]] "d")
              (orDefault ({} : KPICalculator.Options).outlierThreshold 1.5)).1,
          min := jsMin
            (KPICalculator.detectOutliers (KPICalculator.durationsOf trivialEnv [[("d", Scalar.num 1)]] "d")
              (orDefault ({} : KPICalculator.Options).outlierThreshold 1.5)).1,
          max := jsMax
            (KPICalculator.detectOutliers (KPICalculator.durationsOf trivialEnv [[("d", Scalar.num 1)]] "d")
              (orDefault ({} : KPICalculator.Options).outlierThreshold 1.5)).1,
          stdDev := KPICalculator.calculateStandardDeviation
            (KPICalculator.detectOutliers (KPICalculator.durationsOf trivialEnv [[("d", Scalar.num 1)]] "d")
              (orDefault ({} : KPICalculator.Options).outlierThreshold 1.5)).1,
          confidenceInterval := KPICalculator.calculateConfidenceIntervalForMean
            (KPICalculator.detectOutliers (KPICalculator.durationsOf trivialEnv [[("d", Scalar.num 1)]] "d")
              (orDefault ({} : KPICalculator.Options).outlierThreshold 1.5)).1
            (orDefault ({} : KPICalculator.Options).confidenceLevel 0.95),
          outliers :=
            (KPICalculator.detectOutliers (KPICalculator.durationsOf trivialEnv [[("d", Scalar.num 1)]] "d")
              (orDefault ({} : KPICalculator.Options).outlierThreshold 1.5)).2,
          sampleSize := (KPICalculator.durationsOf trivialEnv [[("d", Scalar.num 1)]] "d").length })) :=
  ⟨rfl, calculateProcessDuration_spec trivialEnv {} [[("d", Scalar.num 1)]] "d" rfl⟩

/-- Claim C10: for any non-empty value list and outlier threshold `k ≥ 0`,
the clean partition of `detectOutliers` is non-empty (the value at the q1
index always survives), so the statistics taken in
`calculateProcessDuration` after outlier removal always see a non-empty
list whenever at least one numeric duration exists. -/
theorem detectOutliers_clean_nonempty
    (xs : List ℝ) (k : ℝ) (hxs : xs ≠ []) (hk : 0 ≤ k)
    (env : JSEnv) (opts : KPICalculator.Options) (data : List Row) (f : String)
    (hth : 0 ≤ orDefault opts.outlierThreshold 1.5)
    (hds : KPICalculator.durationsOf env data f ≠ []) :
    (KPICalculator.detectOutliers xs k).1 ≠ [] ∧
      KPICalculator.cleanedDurationsOf opts env data f ≠ [] := by
  have main : ∀ (ys : List ℝ) (t : ℝ), ys ≠ [] → 0 ≤ t →
      (KPICalculator.detectOutliers ys t).1 ≠ [] := by
    intro ys t hys ht
    have hlen : ¬ ys.length = 0 := by simpa [List.length_eq_zero] using hys
    simp only [KPICalculator.detectOutliers, if_neg hlen]
    have hslen : (ys.insertionSort (· ≤ ·)).length = ys.length :=
      List.length_insertionSort _ _
    have hpos : 0 < (ys.insertionSort (· ≤ ·)).length := by
      rw [hslen]; exact Nat.pos_of_ne_zero hlen
    have hq1lt : (ys.insertionSort (· ≤ ·)).length / 4 <
        (ys.insertionSort (· ≤ ·)).length := Nat.div_lt_self hpos (by norm_num)
    have hq3lt : 3 * (ys.insertionSort (· ≤ ·)).length / 4 <
        (ys.insertionSort (· ≤ ·)).length := by
      rw [Nat.div_lt_iff_lt_mul (by norm_num)]
      omega
    have hsorted : (ys.insertionSort (· ≤ ·)).Sorted (· ≤ ·) :=
      List.sorted_insertionSort _ _
    have hle : (ys.insertionSort (· ≤ ·)).getD ((ys.insertionSort (· ≤ ·)).length / 4) 0 ≤
        (ys.insertionSort (· ≤ ·)).getD (3 * (ys.insertionSort (· ≤ ·)).length / 4) 0 := by
      rw [List.getD_eq_get _ _ hq1lt, List.getD_eq_get _ _ hq3lt]
      have hidx : (ys.insertionSort (· ≤ ·)).length / 4 ≤
          3 * (ys.insertionSort (· ≤ ·)).length / 4 :=
        Nat.div_le_div_right (by omega)
      exact hsorted.rel_get_of_le (Fin.mk_le_mk.2 hidx)
    have hmem : (ys.insertionSort (· ≤ ·)).getD ((ys.insertionSort (· ≤ ·)).length / 4) 0 ∈ ys := by
      rw [List.getD_eq_get _ _ hq1lt]
      exact (List.mem_insertionSort _).1 (List.get_mem _ _ _)
    refine List.ne_nil_of_mem (List.mem_filter.2 ⟨hmem, ?_⟩)
    simp only [Bool.not_eq_true', Bool.or_eq_false_iff, decide_eq_false_iff_not, not_lt]
    constructor
    · have : 0 ≤ t * ((ys.insertionSort (· ≤ ·)).getD (3 * (ys.insertionSort (· ≤ ·)).length / 4) 0 -
          (ys.insertionSort (· ≤ ·)).getD ((ys.insertionSort (· ≤ ·)).length / 4) 0) :=
        mul_nonneg ht (sub_nonneg.2 hle)
      linarith
    · have : 0 ≤ t * ((ys.insertionSort (· ≤ ·)).getD (3 * (ys.insertionSort (· ≤ ·)).length / 4) 0 -
          (ys.insertionSort (· ≤ ·)).getD ((ys.insertionSort (· ≤ ·)).length / 4) 0) :=
        mul_nonneg ht (sub_nonneg.2 hle)
      linarith
  refine ⟨main xs k hxs hk, ?_⟩
  unfold KPICalculator.cleanedDurationsOf
  cases hdet : opts.outlierDetection with
  | false => simpa [hdet] using hds
  | true => simpa [hdet] using main _ _ hds hth

/-- Witness for C10 at a concrete input. -/
theorem detectOutliers_clean_nonempty_witness :
    (([(1 : ℝ)] ≠ [] ∧ (0 : ℝ) ≤ 0) ∧
      (0 : ℝ) ≤ orDefault ({} : KPICalculator.Options).outlierThreshold 1.5 ∧
      KPICalculator.durationsOf trivialEnv [[("d", Scalar.num 1)]] "d" ≠ []) ∧
    (KPICalculator.detectOutliers [(1 : ℝ)] 0).1 ≠ [] ∧
      KPICalculator.cleanedDurationsOf {} trivialEnv [[("d", Scalar.num 1)]] "d" ≠ [] := by
  have h1 : ([(1 : ℝ)] : List ℝ) ≠ [] := by simp
  have h2 : (0 : ℝ) ≤ 0 := le_refl 0
  have h3 : (0 : ℝ) ≤ orDefault ({} : KPICalculator.Options).outlierThreshold 1.5 := by
    unfold orDefault
    norm_num
  have h4 : KPICalculator.durationsOf trivialEnv [[("d", Scalar.num 1)]] "d" ≠ [] := by
    simp [KPICalculator.durationsOf, numericValues, trivialEnv, toNumber, Row.getF]
  exact ⟨⟨⟨h1, h2⟩, h3, h4⟩,
    detectOutliers_clean_nonempty [(1 : ℝ)] 0 h1 h2 trivialEnv {}
      [[("d", Scalar.num 1)]] "d" h3 h4⟩

/-- Counterexample to claim C4 as stated: on the degenerate input
`xs = [2,2,2]`, `ys = [1,2,3]` (all x equal, so `Σ(x−x̄)² = 0`), neither
regression returns all zeros — the guard only covers empty or
length-mismatched input, and the intercept evaluates to `ȳ = 2`
(in JS the division `0/0` makes slope and intercept `NaN`, likewise not
zero). -/
theorem calculateLinearRegression_degenerate_counterexample :
    ¬ (KPICalculator.calculateLinearRegression [2, 2, 2] [1, 2, 3] =
        { slope := 0, intercept := 0, rSquared := 0 } ∧
      ProcessAnalytics.calculateLinearRegression [2, 2, 2] [1, 2, 3] =
        { slope := 0, intercept := 0, rSquared := 0 }) := by
  rintro ⟨h1, -⟩
  have h2 : (KPICalculator.calculateLinearRegression [2, 2, 2] [1, 2, 3]).intercept = 2 := by
    norm_num [KPICalculator.calculateLinearRegression, KPICalculator.calculateMean,
      List.zip, List.zipWith]
  rw [h1] at h2
  norm_num at h2

/-- Claim C4 (amended): for equal-length inputs with `xs` non-empty and
degenerate (`Σ(x−x̄)² = 0`), both `calculateLinearRegression`s return
`slope = 0` and `rSquared = 0` under the real-division convention
`0/0 = 0`, but the intercept equals `mean ys`, not `0`; all-zero output
only arises from the empty/mismatched-length guard.  The two class copies
of the function agree. -/
theorem calculateLinearRegression_degenerate (xs ys : List ℝ)
    (hlen : xs.length = ys.length) (hne : xs ≠ [])
    (hdeg : ((xs.map fun x => (x - KPICalculator.calculateMean xs) ^ 2).sum) = 0) :
    (KPICalculator.calculateLinearRegression xs ys).slope = 0 ∧
    (KPICalculator.calculateLinearRegression xs ys).rSquared = 0 ∧
    (KPICalculator.calculateLinearRegression xs ys).intercept =
      KPICalculator.calculateMean ys ∧
    ProcessAnalytics.calculateLinearRegression xs ys =
      KPICalculator.calculateLinearRegression xs ys := by
  have hlen0 : ¬ (xs.length ≠ ys.length ∨ xs.length = 0) := by
    push_neg
    exact ⟨hlen, by simpa [List.length_eq_zero] using hne⟩
  have hall : ∀ x ∈ xs, x = KPICalculator.calculateMean xs := by
    intro x hx
    by_contra hxne
    have hterm : 0 < (x - KPICalculator.calculateMean xs) ^ 2 :=
      lt_of_le_of_ne (sq_nonneg _) (Ne.symm (pow_ne_zero 2 (sub_ne_zero.2 hxne)))
    have hmemsq : (x - KPICalculator.calculateMean xs) ^ 2 ∈
        xs.map fun x => (x - KPICalculator.calculateMean xs) ^ 2 :=
      List.mem_map_of_mem _ hx
    have hle : (x - KPICalculator.calculateMean xs) ^ 2 ≤
        ((xs.map fun x => (x - KPICalculator.calculateMean xs) ^ 2).sum) :=
      List.single_le_sum (fun b hb => by
        obtain ⟨y, hy, rfl⟩ := List.mem_map.1 hb
        positivity) _ hmemsq
    rw [hdeg] at hle
    linarith
  have hXY : (((xs.zip ys).map fun p =>
      (p.1 - KPICalculator.calculateMean xs) * (p.2 - KPICalculator.calculateMean ys)).sum) = 0 := by
    apply List.sum_eq_zero
    intro a ha
    obtain ⟨p, hp, rfl⟩ := List.mem_map.1 ha
    have hfst : p.1 ∈ xs := (List.mem_zip hp).1
    rw [hall p.1 hfst]
    ring
  have hXX : (((xs.zip ys).map fun p =>
      (p.1 - KPICalculator.calculateMean xs) * (p.1 - KPICalculator.calculateMean xs)).sum) = 0 := by
    apply List.sum_eq_zero
    intro a ha
    obtain ⟨p, hp, rfl⟩ := List.mem_map.1 ha
    have hfst : p.1 ∈ xs := (List.mem_zip hp).1
    rw [hall p.1 hfst]
    ring
  refine ⟨?_, ?_, ?_, rfl⟩
  · show (KPICalculator.calculateLinearRegression xs ys).slope = 0
    simp only [KPICalculator.calculateLinearRegression, if_neg hlen0]
    rw [hXY]
    simp
  · show (KPICalculator.calculateLinearRegression xs ys).rSquared = 0
    simp only [KPICalculator.calculateLinearRegression, if_neg hlen0]
    rw [hXY]
    simp
  · show (KPICalculator.calculateLinearRegression xs ys).intercept =
      KPICalculator.calculateMean ys
    simp only [KPICalculator.calculateLinearRegression, if_neg hlen0]
    rw [hXY]
    simp

/-- Witness for the amended C4 at the counterexample input. -/
theorem calculateLinearRegression_degenerate_witness :
    (([2, 2, 2] : List ℝ).length = ([1, 2, 3] : List ℝ).length ∧
      ([2, 2, 2] : List ℝ) ≠ [] ∧
      ((([2, 2, 2] : List ℝ).map
        fun x => (x - KPICalculator.calculateMean [2, 2, 2]) ^ 2).sum) = 0) ∧
    ((KPICalculator.calculateLinearRegression [2, 2, 2] [1, 2, 3]).slope = 0 ∧
      (KPICalculator.calculateLinearRegression [2, 2, 2] [1, 2, 3]).rSquared = 0 ∧
      (KPICalculator.calculateLinearRegression [2, 2, 2] [1, 2, 3]).intercept =
        KPICalculator.calculateMean [1, 2, 3] ∧
      ProcessAnalytics.calculateLinearRegression [2, 2, 2] [1, 2, 3] =
        KPICalculator.calculateLinearRegression [2, 2, 2] [1, 2, 3]) := by
  have h1 : ([2, 2, 2] : List ℝ).length = ([1, 2, 3] : List ℝ).length := rfl
  have h2 : ([2, 2, 2] : List ℝ) ≠ [] := by simp
  have h3 : ((([2, 2, 2] : List ℝ).map
      fun x => (x - KPICalculator.calculateMean [2, 2, 2]) ^ 2).sum) = 0 := by
    norm_num [KPICalculator.calculateMean]
  exact ⟨⟨h1, h2, h3⟩, calculateLinearRegression_degenerate [2, 2, 2] [1, 2, 3] h1 h2 h3⟩

/-- Helper for C1: the Wilson centre never drifts from the observed
proportion by more than the adjustment term, provided the z-score is
nonnegative. -/
theorem wilson_center_close (z p N : ℝ) (hz : 0 ≤ z) (hN : 0 < N)
    (hp0 : 0 ≤ p) (hp1 : p ≤ 1) :
    |(p + z * z / (2 * N)) / (1 + z * z / N) - p| ≤
      z * Real.sqrt ((p * (1 - p) + z * z / (4 * N)) / N) / (1 + z * z / N) := by
  have hpp : 0 ≤ p * (1 - p) := mul_nonneg hp0 (by linarith)
  have hd : (0 : ℝ) < 1 + z * z / N := by positivity
  have hu : 0 ≤ (p * (1 - p) + z * z / (4 * N)) / N := by positivity
  have hs0 : 0 ≤ Real.sqrt ((p * (1 - p) + z * z / (4 * N)) / N) := Real.sqrt_nonneg _
  have hs2 : Real.sqrt ((p * (1 - p) + z * z / (4 * N)) / N) ^ 2 =
      (p * (1 - p) + z * z / (4 * N)) / N := Real.sq_sqrt hu
  have hcp : (p + z * z / (2 * N)) / (1 + z * z / N) - p =
      (z * z / N * (1 / 2 - p)) / (1 + z * z / N) := by
    field_simp
    ring
  rw [hcp, abs_div, abs_of_pos hd, div_le_div_iff_of_pos_right hd]
  have hkey : (z * z / N * (1 / 2 - p)) ^ 2 ≤
      (z * Real.sqrt ((p * (1 - p) + z * z / (4 * N)) / N)) ^ 2 := by
    have hrhs : (z * Real.sqrt ((p * (1 - p) + z * z / (4 * N)) / N)) ^ 2 =
        z ^ 2 * ((p * (1 - p) + z * z / (4 * N)) / N) := by
      rw [mul_pow, hs2]
    rw [hrhs]
    have hN0 : N ≠ 0 := ne_of_gt hN
    have hid : z ^ 2 * ((p * (1 - p) + z * z / (4 * N)) / N) -
        (z * z / N * (1 / 2 - p)) ^ 2 =
        (z ^ 2 * (p * (1 - p)) * N + z ^ 2 * z ^ 2 * (p * (1 - p))) / N ^ 2 := by
      field_simp
      ring
    have hnum : 0 ≤ z ^ 2 * (p * (1 - p)) * N + z ^ 2 * z ^ 2 * (p * (1 - p)) :=
      add_nonneg (mul_nonneg (mul_nonneg (sq_nonneg z) hpp) hN.le)
        (mul_nonneg (mul_nonneg (sq_nonneg z) (sq_nonneg z)) hpp)
    have hfrac : 0 ≤ z ^ 2 * ((p * (1 - p) + z * z / (4 * N)) / N) -
        (z * z / N * (1 / 2 - p)) ^ 2 := by
      rw [hid]
      exact div_nonneg hnum (sq_nonneg N)
    linarith
  calc |z * z / N * (1 / 2 - p)| =
      Real.sqrt ((z * z / N * (1 / 2 - p)) ^ 2) := (Real.sqrt_sq_eq_abs _).symm
    _ ≤ Real.sqrt ((z * Real.sqrt ((p * (1 - p) + z * z / (4 * N)) / N)) ^ 2) :=
        Real.sqrt_le_sqrt hkey
    _ = z * Real.sqrt ((p * (1 - p) + z * z / (4 * N)) / N) :=
        Real.sqrt_sq (mul_nonneg hz hs0)

/-- Claim C1 (amended): for `k ≤ n` and any confidence level whose z-score
is nonnegative — which includes the exact lookup levels 0.90 / 0.95 /
0.99 — `calculateWilsonInterval k n level` satisfies
`0 ≤ lo ≤ k/n ≤ hi ≤ 1` when `n > 0`, and equals `(0, 0)` when `n = 0`.
The nonnegativity condition cannot be dropped: the counterexample shows a
level in `(0, 1)` whose z-score is negative, inverting the interval. -/
theorem calculateWilsonInterval_bounds (k n : ℕ) (level : ℝ)
    (hz : 0 ≤ KPICalculator.getZScore level) (hkn : k ≤ n) :
    (n = 0 → KPICalculator.calculateWilsonInterval k n level = (0, 0)) ∧
    (0 < n →
      0 ≤ (KPICalculator.calculateWilsonInterval k n level).1 ∧
      (KPICalculator.calculateWilsonInterval k n level).1 ≤ (k : ℝ) / (n : ℝ) ∧
      (k : ℝ) / (n : ℝ) ≤ (KPICalculator.calculateWilsonInterval k n level).2 ∧
      (KPICalculator.calculateWilsonInterval k n level).2 ≤ 1) := by
  constructor
  · intro h
    simp [KPICalculator.calculateWilsonInterval, h]
  · intro hn
    have hn0 : n ≠ 0 := Nat.pos_iff_ne_zero.1 hn
    have hN : (0 : ℝ) < (n : ℝ) := by exact_mod_cast hn
    have hp0 : 0 ≤ (k : ℝ) / (n : ℝ) := by positivity
    have hp1 : (k : ℝ) / (n : ℝ) ≤ 1 := by
      rw [div_le_one hN]
      exact_mod_cast hkn
    have habs := wilson_center_close (KPICalculator.getZScore level) ((k : ℝ) / (n : ℝ))
      (n : ℝ) hz hN hp0 hp1
    rw [abs_le] at habs
    simp only [KPICalculator.calculateWilsonInterval, if_neg hn0]
    refine ⟨le_max_left _ _, ?_, ?_, min_le_left _ _⟩
    · exact max_le hp0 (by linarith [habs.2])
    · exact le_min hp1 (by linarith [habs.1])

/-- Witness for the amended C1 at `k = 1`, `n = 2`, level `0.95`. -/
theorem calculateWilsonInterval_bounds_witness :
    (0 ≤ KPICalculator.getZScore 0.95 ∧ 1 ≤ 2) ∧
    ((2 = 0 → KPICalculator.calculateWilsonInterval 1 2 0.95 = (0, 0)) ∧
      (0 < 2 →
        0 ≤ (KPICalculator.calculateWilsonInterval 1 2 0.95).1 ∧
        (KPICalculator.calculateWilsonInterval 1 2 0.95).1 ≤ (1 : ℝ) / (2 : ℝ) ∧
        (1 : ℝ) / (2 : ℝ) ≤ (KPICalculator.calculateWilsonInterval 1 2 0.95).2 ∧
        (KPICalculator.calculateWilsonInterval 1 2 0.95).2 ≤ 1)) := by
  have hz : 0 ≤ KPICalculator.getZScore 0.95 := by
    unfold KPICalculator.getZScore
    norm_num
  have h := calculateWilsonInterval_bounds 1 2 0.95 hz (by norm_num)
  refine ⟨⟨hz, by norm_num⟩, h.1, fun _ => ?_⟩
  have h2 := h.2 (by norm_num)
  push_cast at h2 ⊢
  exact h2

/-- Counterexample to claim C1 as stated: at confidence level `0.85`
(inside the documented range `(0, 1)`), `getZScore` evaluates through the
broken `inverseNormalCDF` central branch to a negative value
(≈ `-16.87`), the adjustment term becomes negative, and the returned
lower bound exceeds `k/n`: for `k = 1`, `n = 2` the lower bound is
strictly greater than `1/2`. -/
theorem calculateWilsonInterval_bounds_counterexample :
    (1 : ℝ) / 2 < (KPICalculator.calculateWilsonInterval 1 2 0.85).1 := by
  have hn0 : (2 : ℕ) ≠ 0 := by norm_num
  simp only [KPICalculator.calculateWilsonInterval, if_neg hn0]
  obtain ⟨z, hzdef⟩ : ∃ z, KPICalculator.getZScore 0.85 = z := ⟨_, rfl⟩
  have hzneg : z < 0 := by
    rw [← hzdef]
    unfold KPICalculator.getZScore KPICalculator.inverseNormalCDF
    norm_num [abs_le]
  rw [hzdef]
  have hzz : (0 : ℝ) ≤ z * z := mul_self_nonneg z
  have hd : (0 : ℝ) < 1 + z * z / ((2 : ℕ) : ℝ) := by
    have h2 : ((2 : ℕ) : ℝ) = 2 := by norm_num
    rw [h2]
    linarith
  have hcenter : (((1 : ℕ) : ℝ) / ((2 : ℕ) : ℝ) + z * z / (2 * ((2 : ℕ) : ℝ))) /
      (1 + z * z / ((2 : ℕ) : ℝ)) = 1 / 2 := by
    push_cast
    rw [div_eq_iff (ne_of_gt (by linarith : (0 : ℝ) < 1 + z * z / 2))]
    ring
  have hsqrtpos : 0 < Real.sqrt ((((1 : ℕ) : ℝ) / ((2 : ℕ) : ℝ) *
      (1 - ((1 : ℕ) : ℝ) / ((2 : ℕ) : ℝ)) + z * z / (4 * ((2 : ℕ) : ℝ))) / ((2 : ℕ) : ℝ)) := by
    apply Real.sqrt_pos.2
    have harg : (((1 : ℕ) : ℝ) / ((2 : ℕ) : ℝ) * (1 - ((1 : ℕ) : ℝ) / ((2 : ℕ) : ℝ)) +
        z * z / (4 * ((2 : ℕ) : ℝ))) / ((2 : ℕ) : ℝ) = 1 / 8 + z * z / 16 := by
      push_cast
      ring
    rw [harg]
    linarith
  have hadj : z * Real.sqrt ((((1 : ℕ) : ℝ) / ((2 : ℕ) : ℝ) *
      (1 - ((1 : ℕ) : ℝ) / ((2 : ℕ) : ℝ)) + z * z / (4 * ((2 : ℕ) : ℝ))) / ((2 : ℕ) : ℝ)) /
      (1 + z * z / ((2 : ℕ) : ℝ)) < 0 :=
    div_neg_of_neg_of_pos (mul_neg_of_neg_of_pos hzneg hsqrtpos) hd
  rw [hcenter]
  have : (1 : ℝ) / 2 < 1 / 2 - z * Real.sqrt ((((1 : ℕ) : ℝ) / ((2 : ℕ) : ℝ) *
      (1 - ((1 : ℕ) : ℝ) / ((2 : ℕ) : ℝ)) + z * z / (4 * ((2 : ℕ) : ℝ))) / ((2 : ℕ) : ℝ)) /
      (1 + z * z / ((2 : ℕ) : ℝ)) := by linarith
  exact lt_of_lt_of_le this (le_max_right _ _)

/-- `mapWithIdx` preserves length. -/
theorem mapWithIdx_length {α β : Type} (f : ℕ → α → β) :
    ∀ (i : ℕ) (l : List α), (mapWithIdx f i l).length = l.length
  | _, [] => rfl
  | i, _ :: l => by simp [mapWithIdx, mapWithIdx_length f (i + 1) l]

/-- Mapping a projection over `mapWithIdx` that ignores the index. -/
theorem mapWithIdx_map {α β γ : Type} (f : ℕ → α → β) (g : β → γ) (g' : α → γ)
    (hg : ∀ i a, g (f i a) = g' a) :
    ∀ (i : ℕ) (l : List α), (mapWithIdx f i l).map g = l.map g'
  | _, [] => rfl
  | i, a :: l => by simp [mapWithIdx, hg, mapWithIdx_map f g g' hg (i + 1) l]

/-- Mapping a projection over `mapWithIdx` that depends only on the index. -/
theorem mapWithIdx_map_index {α β γ : Type} (f : ℕ → α → β) (g : β → γ) (g' : ℕ → γ)
    (hg : ∀ i a, g (f i a) = g' i) :
    ∀ (i : ℕ) (l : List α), (mapWithIdx f i l).map g = (List.range' i l.length).map g'
  | _, [] => rfl
  | i, a :: l => by
    simp [mapWithIdx, hg, mapWithIdx_map_index f g g' hg (i + 1) l, List.range']

/-- Filtering and projecting through `mapWithIdx` when both are
index-independent. -/
theorem mapWithIdx_filter_map {α β γ : Type} (f : ℕ → α → β) (p : β → Bool)
    (p' : α → Bool) (g : β → γ) (g' : α → γ)
    (hp : ∀ i a, p (f i a) = p' a) (hg : ∀ i a, g (f i a) = g' a) :
    ∀ (i : ℕ) (l : List α),
      ((mapWithIdx f i l).filter p).map g = (l.filter p').map g'
  | _, [] => rfl
  | i, a :: l => by
    simp only [mapWithIdx, List.filter_cons, hp]
    by_cases h : p' a = true
    · simp [h, hg, mapWithIdx_filter_map f p p' g g' hp hg (i + 1) l]
    · simp [h, mapWithIdx_filter_map f p p' g g' hp hg (i + 1) l]

/-- Every element of `mapWithIdx f i l` is `f j a` for some element `a`. -/
theorem mapWithIdx_mem {α β : Type} (f : ℕ → α → β) :
    ∀ (i : ℕ) (l : List α) (b : β), b ∈ mapWithIdx f i l → ∃ j a, a ∈ l ∧ b = f j a
  | _, [], b, h => absurd h (by simp [mapWithIdx])
  | i, a :: l, b, h => by
    simp only [mapWithIdx, List.mem_cons] at h
    rcases h with h | h
    · exact ⟨i, a, List.mem_cons_self a l, h⟩
    · obtain ⟨j, a', ha', hb⟩ := mapWithIdx_mem f (i + 1) l b h
      exact ⟨j, a', List.mem_cons_of_mem _ ha', hb⟩

/-- `orderedInsert` through a `filter` whose accepted class is closed under
the sort relation: the inserted element lands in front of its class. -/
theorem filter_orderedInsert {α : Type} (r : α → α → Prop) [DecidableRel r]
    (p : α → Bool) (hcl : ∀ x y, p x = true → p y = true → r x y) (a : α) :
    ∀ l : List α, (l.orderedInsert r a).filter p =
      if p a then a :: l.filter p else l.filter p
  | [] => by
    rw [List.orderedInsert_nil, List.filter_cons, List.filter_nil]
  | b :: l => by
    rw [List.orderedInsert]
    by_cases hab : r a b
    · rw [if_pos hab, List.filter_cons]
    · rw [if_neg hab, List.filter_cons, filter_orderedInsert r p hcl a l,
        List.filter_cons]
      by_cases hpa : p a = true
      · have hpb : p b = false := by
          rcases Bool.eq_false_or_eq_true (p b) with h | h
          · exact absurd (hcl a b hpa h) hab
          · exact h
        simp [hpa, hpb]
      · have hpa' : p a = false := Bool.not_eq_true _ ▸ Bool.eq_false_iff.2 (by simpa using hpa)
        simp [hpa']

/-- Insertion sort is stable on any class closed under the relation: the
filtered subsequence is untouched. -/
theorem filter_insertionSort {α : Type} (r : α → α → Prop) [DecidableRel r]
    (p : α → Bool) (hcl : ∀ x y, p x = true → p y = true → r x y) :
    ∀ l : List α, (l.insertionSort r).filter p = l.filter p
  | [] => rfl
  | a :: l => by
    rw [List.insertionSort, filter_orderedInsert r p hcl,
      filter_insertionSort r p hcl l, List.filter_cons]

/-- Claim C7: `identifyBestPerformers` excludes every process-type group
with fewer than three numeric performance values (no zero-filling), sorts
the remaining groups by mean descending when `higherIsBetter` and
ascending otherwise, assigns `rank` as the 1-based sorted position, keeps
insertion (first-occurrence) order for groups with equal means, and sets
`percentileBetter = significantlyBetterCount / max(1, totalGroups − 1) ·
100`. -/
theorem identifyBestPerformers_spec (env : JSEnv)
    (opts : ProcessAnalytics.Options) (data : List Row) (ptf pf : String)
    (hib : Bool) :
    ((ProcessAnalytics.identifyBestPerformers env opts data ptf pf hib).map (·.rank) =
      (List.range (ProcessAnalytics.identifyBestPerformers env opts data ptf pf hib).length).map
        (· + 1)) ∧
    (∀ e ∈ ProcessAnalytics.identifyBestPerformers env opts data ptf pf hib,
      e.percentileBetter = (e.significantlyBetterCount : ℝ) /
        ((max 1 ((ProcessAnalytics.identifyBestPerformers env opts data ptf pf hib).length - 1) : ℕ) : ℝ) *
        100) ∧
    ((ProcessAnalytics.identifyBestPerformers env opts data ptf pf hib).map (·.average)).Chain'
      (fun a b => if hib then b ≤ a else a ≤ b) ∧
    (∀ c : ℝ,
      ((ProcessAnalytics.identifyBestPerformers env opts data ptf pf hib).filter
        (fun e => decide (e.average = c))).map (·.processType) =
      ((ProcessAnalytics.performerEntries env opts data ptf pf).filter
        (fun e => decide (e.average = c))).map (·.processType)) ∧
    (∀ k ∈ groupKeys env data ptf,
      (numericValues env (groupItems env data ptf k) pf).length < 3 →
      ∀ e ∈ ProcessAnalytics.identifyBestPerformers env opts data ptf pf hib,
        e.processType ≠ k) := by
  have hsortlen :
      (ProcessAnalytics.sortedPerformerEntries env opts data ptf pf hib).length =
        (ProcessAnalytics.performerEntries env opts data ptf pf).length :=
    List.length_insertionSort _ _
  refine ⟨?_, ?_, ?_, ?_, ?_⟩
  · -- ranks are 1-based sorted positions
    have h1 : (ProcessAnalytics.identifyBestPerformers env opts data ptf pf hib).map (·.rank) =
        (List.range' 0 (ProcessAnalytics.sortedPerformerEntries env opts data ptf pf hib).length).map
          (· + 1) := by
      simp only [ProcessAnalytics.identifyBestPerformers]
      exact mapWithIdx_map_index _ (fun e : ProcessAnalytics.BestPerformerEntry => e.rank)
        (fun i => i + 1) (fun i a => rfl) 0 _
    have h2 : (ProcessAnalytics.identifyBestPerformers env opts data ptf pf hib).length =
        (ProcessAnalytics.sortedPerformerEntries env opts data ptf pf hib).length := by
      simp only [ProcessAnalytics.identifyBestPerformers]
      exact mapWithIdx_length _ 0 _
    rw [h1, h2, List.range_eq_range']
  · -- percentileBetter formula
    intro e he
    simp only [ProcessAnalytics.identifyBestPerformers] at he
    obtain ⟨j, a, ha, rfl⟩ := mapWithIdx_mem _ _ _ _ he
    simp only [ProcessAnalytics.identifyBestPerformers, mapWithIdx_length]
  · -- sortedness of averages in the requested direction
    haveI htotal : IsTotal ProcessAnalytics.BestPerformerEntry
        (ProcessAnalytics.perfLe hib) := by
      constructor
      intro a b
      unfold ProcessAnalytics.perfLe
      cases hib
      · simpa using le_total a.average b.average
      · simpa using le_total b.average a.average
    haveI htrans : IsTrans ProcessAnalytics.BestPerformerEntry
        (ProcessAnalytics.perfLe hib) := by
      constructor
      intro a b c hab hbc
      unfold ProcessAnalytics.perfLe at hab hbc ⊢
      cases hib
      · simp only [Bool.false_eq_true, if_false] at hab hbc ⊢
        exact le_trans hab hbc
      · simp only [if_true] at hab hbc ⊢
        exact le_trans hbc hab
    have hsorted : (ProcessAnalytics.sortedPerformerEntries env opts data ptf pf hib).Sorted
        (ProcessAnalytics.perfLe hib) := List.sorted_insertionSort _ _
    have hmap : (ProcessAnalytics.identifyBestPerformers env opts data ptf pf hib).map (·.average) =
        (ProcessAnalytics.sortedPerformerEntries env opts data ptf pf hib).map (·.average) := by
      simp only [ProcessAnalytics.identifyBestPerformers]
      refine mapWithIdx_map _ (fun e : ProcessAnalytics.BestPerformerEntry => e.average)
        (fun e : ProcessAnalytics.BestPerformerEntry => e.average) ?_ 0 _
      intro i a
      rfl
    rw [hmap]
    apply List.Pairwise.chain'
    rw [List.pairwise_map]
    refine hsorted.imp ?_
    intro a b hab
    unfold ProcessAnalytics.perfLe at hab
    exact hab
  · -- stability: equal-mean groups keep first-occurrence order
    intro c
    have hcl : ∀ x y : ProcessAnalytics.BestPerformerEntry,
        decide (x.average = c) = true → decide (y.average = c) = true →
        ProcessAnalytics.perfLe hib x y := by
      intro x y hx hy
      rw [decide_eq_true_eq] at hx hy
      unfold ProcessAnalytics.perfLe
      cases hib
      · simp [hx, hy]
      · simp [hx, hy]
    have h1 : ((ProcessAnalytics.identifyBestPerformers env opts data ptf pf hib).filter
        (fun e => decide (e.average = c))).map (·.processType) =
        ((ProcessAnalytics.sortedPerformerEntries env opts data ptf pf hib).filter
          (fun e => decide (e.average = c))).map (·.processType) := by
      simp only [ProcessAnalytics.identifyBestPerformers]
      refine mapWithIdx_filter_map _
        (fun e : ProcessAnalytics.BestPerformerEntry => decide (e.average = c))
        (fun e : ProcessAnalytics.BestPerformerEntry => decide (e.average = c))
        (fun e : ProcessAnalytics.BestPerformerEntry => e.processType)
        (fun e : ProcessAnalytics.BestPerformerEntry => e.processType)
        ?_ ?_ 0 _
      · intro i a
        rfl
      · intro i a
        rfl
    rw [h1]
    unfold ProcessAnalytics.sortedPerformerEntries
    rw [filter_insertionSort _ _ hcl]
  · -- small groups are excluded, not zero-filled
    intro k hk hsmall e he
    simp only [ProcessAnalytics.identifyBestPerformers] at he
    obtain ⟨j, a, ha, rfl⟩ := mapWithIdx_mem _ _ _ _ he
    have ha' : a ∈ ProcessAnalytics.performerEntries env opts data ptf pf :=
      (List.Perm.mem_iff (List.perm_insertionSort _ _)).1 ha
    obtain ⟨k', hk', heq⟩ := List.mem_filterMap.1 ha'
    by_cases hlt : (numericValues env (groupItems env data ptf k') pf).length < 3
    · rw [if_pos hlt] at heq
      exact absurd heq (by simp)
    · rw [if_neg hlt] at heq
      obtain rfl := Option.some.inj heq
      intro hcontra
      have : k' = k := hcontra
      subst this
      exact hlt hsmall

/-- Witness for C7 at a concrete input (one group of three equal values). -/
theorem identifyBestPerformers_spec_witness :
    ((ProcessAnalytics.identifyBestPerformers trivialEnv {} rankData "pt" "v" true).map (·.rank) =
      (List.range (ProcessAnalytics.identifyBestPerformers trivialEnv {} rankData "pt" "v" true).length).map
        (· + 1)) ∧
    (∀ e ∈ ProcessAnalytics.identifyBestPerformers trivialEnv {} rankData "pt" "v" true,
      e.percentileBetter = (e.significantlyBetterCount : ℝ) /
        ((max 1 ((ProcessAnalytics.identifyBestPerformers trivialEnv {} rankData "pt" "v" true).length - 1) : ℕ) : ℝ) *
        100) ∧
    ((ProcessAnalytics.identifyBestPerformers trivialEnv {} rankData "pt" "v" true).map (·.average)).Chain'
      (fun a b => if true then b ≤ a else a ≤ b) ∧
    (∀ c : ℝ,
      ((ProcessAnalytics.identifyBestPerformers trivialEnv {} rankData "pt" "v" true).filter
        (fun e => decide (e.average = c))).map (·.processType) =
      ((ProcessAnalytics.performerEntries trivialEnv {} rankData "pt" "v").filter
        (fun e => decide (e.average = c))).map (·.processType)) ∧
    (∀ k ∈ groupKeys trivialEnv rankData "pt",
      (numericValues trivialEnv (groupItems trivialEnv rankData "pt" k) "v").length < 3 →
      ∀ e ∈ ProcessAnalytics.identifyBestPerformers trivialEnv {} rankData "pt" "v" true,
        e.processType ≠ k) :=
  identifyBestPerformers_spec trivialEnv {} rankData "pt" "v" true

set_option maxHeartbeats 2000000 in
/-- Claim C6 evaluated at its own Scenario D input: on a 20-point series
with first ten values in `10 ± 0.5` (mean exactly 10) and last ten in
`20 ± 0.5` (mean exactly 20), the scan does pick the split at index 10
(the maximal mean difference), but the small-`df` branch of `tDistPValue`
evaluates to `2·(71/72)·√(9000/9018)·(0.5 + 0.3989…·e^{-4500}) ≈ 0.98`,
which is `≥ 0.05`, so `detectStepChangePattern` returns **no pattern** —
contradicting the claim that it reports a change point with
`pValue < 0.05`. -/
theorem detectStepChangePattern_scenarioD_rejects :
    ProcessAnalytics.detectStepChangePattern trivialEnv {} stepData "p" = none := by
  have hvals : numericValues trivialEnv stepData "p" = stepValsR := by
    simp [numericValues, stepData, stepSeries, stepValsR, Row.getF, toNumber, trivialEnv]
  have hscan : ProcessAnalytics.stepScan stepValsR 3 = ((10:ℤ), (10:ℝ)) := by
    have e3 : |ProcessAnalytics.calculateMean (stepValsR.drop 3) -
        ProcessAnalytics.calculateMean (stepValsR.take 3)| = 100/17 := by
      rw [show stepValsR.drop 3 = [(10:ℝ), 10, 10, 10, 10, 10, 10, 19.5, 20.5, 20, 20, 20, 20, 20, 20, 20, 20] from rfl,
        show stepValsR.take 3 = [(9.5:ℝ), 10.5, 10] from rfl]
      rw [show ProcessAnalytics.calculateMean [(10:ℝ), 10, 10, 10, 10, 10, 10, 19.5, 20.5, 20, 20, 20, 20, 20, 20, 20, 20] = 270/17 from by
          norm_num [ProcessAnalytics.calculateMean],
        show ProcessAnalytics.calculateMean [(9.5:ℝ), 10.5, 10] = 10 from by
          norm_num [ProcessAnalytics.calculateMean]]
      rw [show (270/17 : ℝ) - 10 = 100/17 from by norm_num]
      exact abs_of_nonneg (by norm_num)
    have e4 : |ProcessAnalytics.calculateMean (stepValsR.drop 4) -
        ProcessAnalytics.calculateMean (stepValsR.take 4)| = 25/4 := by
      rw [show stepValsR.drop 4 = [(10:ℝ), 10, 10, 10, 10, 10, 19.5, 20.5, 20, 20, 20, 20, 20, 20, 20, 20] from rfl,
        show stepValsR.take 4 = [(9.5:ℝ), 10.5, 10, 10] from rfl]
      rw [show ProcessAnalytics.calculateMean [(10:ℝ), 10, 10, 10, 10, 10, 19.5, 20.5, 20, 20, 20, 20, 20, 20, 20, 20] = 65/4 from by
          norm_num [ProcessAnalytics.calculateMean],
        show ProcessAnalytics.calculateMean [(9.5:ℝ), 10.5, 10, 10] = 10 from by
          norm_num [ProcessAnalytics.calculateMean]]
      rw [show (65/4 : ℝ) - 10 = 25/4 from by norm_num]
      exact abs_of_nonneg (by norm_num)
    have e5 : |ProcessAnalytics.calculateMean (stepValsR.drop 5) -
        ProcessAnalytics.calculateMean (stepValsR.take 5)| = 20/3 := by
      rw [show stepValsR.drop 5 = [(10:ℝ), 10, 10, 10, 10, 19.5, 20.5, 20, 20, 20, 20, 20, 20, 20, 20] from rfl,
        show stepValsR.take 5 = [(9.5:ℝ), 10.5, 10, 10, 10] from rfl]
      rw [show ProcessAnalytics.calculateMean [(10:ℝ), 10, 10, 10, 10, 19.5, 20.5, 20, 20, 20, 20, 20, 20, 20, 20] = 50/3 from by
          norm_num [ProcessAnalytics.calculateMean],
        show ProcessAnalytics.calculateMean [(9.5:ℝ), 10.5, 10, 10, 10] = 10 from by
          norm_num [ProcessAnalytics.calculateMean]]
      rw [show (50/3 : ℝ) - 10 = 20/3 from by norm_num]
      exact abs_of_nonneg (by norm_num)
    have e6 : |ProcessAnalytics.calculateMean (stepValsR.drop 6) -
        ProcessAnalytics.calculateMean (stepValsR.take 6)| = 50/7 := by
      rw [show stepValsR.drop 6 = [(10:ℝ), 10, 10, 10, 19.5, 20.5, 20, 20, 20, 20, 20, 20, 20, 20] from rfl,
        show stepValsR.take 6 = [(9.5:ℝ), 10.5, 10, 10, 10, 10] from rfl]
      rw [show ProcessAnalytics.calculateMean [(10:ℝ), 10, 10, 10, 19.5, 20.5, 20, 20, 20, 20, 20, 20, 20, 20] = 120/7 from by
          norm_num [ProcessAnalytics.calculateMean],
        show ProcessAnalytics.calculateMean [(9.5:ℝ), 10.5, 10, 10, 10, 10] = 10 from by
          norm_num [ProcessAnalytics.calculateMean]]
      rw [show (120/7 : ℝ) - 10 = 50/7 from by norm_num]
      exact abs_of_nonneg (by norm_num)
    have e7 : |ProcessAnalytics.calculateMean (stepValsR.drop 7) -
        ProcessAnalytics.calculateMean (stepValsR.take 7)| = 100/13 := by
      rw [show stepValsR.drop 7 = [(10:ℝ), 10, 10, 19.5, 20.5, 20, 20, 20, 20, 20, 20, 20, 20] from rfl,
        show stepValsR.take 7 = [(9.5:ℝ), 10.5, 10, 10, 10, 10, 10] from rfl]
      rw [show ProcessAnalytics.calculateMean [(10:ℝ), 10, 10, 19.5, 20.5, 20, 20, 20, 20, 20, 20, 20, 20] = 230/13 from by
          norm_num [ProcessAnalytics.calculateMean],
        show ProcessAnalytics.calculateMean [(9.5:ℝ), 10.5, 10, 10, 10, 10, 10] = 10 from by
          norm_num [ProcessAnalytics.calculateMean]]
      rw [show (230/13 : ℝ) - 10 = 100/13 from by norm_num]
      exact abs_of_nonneg (by norm_num)
    have e8 : |ProcessAnalytics.calculateMean (stepValsR.drop 8) -
        ProcessAnalytics.calculateMean (stepValsR.take 8)| = 25/3 := by
      rw [show stepValsR.drop 8 = [(10:ℝ), 10, 19.5, 20.5, 20, 20, 20, 20, 20, 20, 20, 20] from rfl,
        show stepValsR.take 8 = [(9.5:ℝ), 10.5, 10, 10, 10, 10, 10, 10] from rfl]
      rw [show ProcessAnalytics.calculateMean [(10:ℝ), 10, 19.5, 20.5, 20, 20, 20, 20, 20, 20, 20, 20] = 55/3 from by
          norm_num [ProcessAnalytics.calculateMean],
        show ProcessAnalytics.calculateMean [(9.5:ℝ), 10.5, 10, 10, 10, 10, 10, 10] = 10 from by
          norm_num [ProcessAnalytics.calculateMean]]
      rw [show (55/3 : ℝ) - 10 = 25/3 from by norm_num]
      exact abs_of_nonneg (by norm_num)
    have e9 : |ProcessAnalytics.calculateMean (stepValsR.drop 9) -
        ProcessAnalytics.calculateMean (stepValsR.take 9)| = 100/11 := by
      rw [show stepValsR.drop 9 = [(10:ℝ), 19.5, 20.5, 20, 20, 20, 20, 20, 20, 20, 20] from rfl,
        show stepValsR.take 9 = [(9.5:ℝ), 10.5, 10, 10, 10, 10, 10, 10, 10] from rfl]
      rw [show ProcessAnalytics.calculateMean [(10:ℝ), 19.5, 20.5, 20, 20, 20, 20, 20, 20, 20, 20] = 210/11 from by
          norm_num [ProcessAnalytics.calculateMean],
        show ProcessAnalytics.calculateMean [(9.5:ℝ), 10.5, 10, 10, 10, 10, 10, 10, 10] = 10 from by
          norm_num [ProcessAnalytics.calculateMean]]
      rw [show (210/11 : ℝ) - 10 = 100/11 from by norm_num]
      exact abs_of_nonneg (by norm_num)
    have e10 : |ProcessAnalytics.calculateMean (stepValsR.drop 10) -
        ProcessAnalytics.calculateMean (stepValsR.take 10)| = 10 := by
      rw [show stepValsR.drop 10 = [(19.5:ℝ), 20.5, 20, 20, 20, 20, 20, 20, 20, 20] from rfl,
        show stepValsR.take 10 = [(9.5:ℝ), 10.5, 10, 10, 10, 10, 10, 10, 10, 10] from rfl]
      rw [show ProcessAnalytics.calculateMean [(19.5:ℝ), 20.5, 20, 20, 20, 20, 20, 20, 20, 20] = 20 from by
          norm_num [ProcessAnalytics.calculateMean],
        show ProcessAnalytics.calculateMean [(9.5:ℝ), 10.5, 10, 10, 10, 10, 10, 10, 10, 10] = 10 from by
          norm_num [ProcessAnalytics.calculateMean]]
      rw [show (20 : ℝ) - 10 = 10 from by norm_num]
      exact abs_of_nonneg (by norm_num)
    have e11 : |ProcessAnalytics.calculateMean (stepValsR.drop 11) -
        ProcessAnalytics.calculateMean (stepValsR.take 11)| = 910/99 := by
      rw [show stepValsR.drop 11 = [(20.5:ℝ), 20, 20, 20, 20, 20, 20, 20, 20] from rfl,
        show stepValsR.take 11 = [(9.5:ℝ), 10.5, 10, 10, 10, 10, 10, 10, 10, 10, 19.5] from rfl]
      rw [show ProcessAnalytics.calculateMean [(20.5:ℝ), 20, 20, 20, 20, 20, 20, 20, 20] = 361/18 from by
          norm_num [ProcessAnalytics.calculateMean],
        show ProcessAnalytics.calculateMean [(9.5:ℝ), 10.5, 10, 10, 10, 10, 10, 10, 10, 10, 19.5] = 239/22 from by
          norm_num [ProcessAnalytics.calculateMean]]
      rw [show (361/18 : ℝ) - 239/22 = 910/99 from by norm_num]
      exact abs_of_nonneg (by norm_num)
    have e12 : |ProcessAnalytics.calculateMean (stepValsR.drop 12) -
        ProcessAnalytics.calculateMean (stepValsR.take 12)| = 25/3 := by
      rw [show stepValsR.drop 12 = [(20:ℝ), 20, 20, 20, 20, 20, 20, 20] from rfl,
        show stepValsR.take 12 = [(9.5:ℝ), 10.5, 10, 10, 10, 10, 10, 10, 10, 10, 19.5, 20.5] from rfl]
      rw [show ProcessAnalytics.calculateMean [(20:ℝ), 20, 20, 20, 20, 20, 20, 20] = 20 from by
          norm_num [ProcessAnalytics.calculateMean],
        show ProcessAnalytics.calculateMean [(9.5:ℝ), 10.5, 10, 10, 10, 10, 10, 10, 10, 10, 19.5, 20.5] = 35/3 from by
          norm_num [ProcessAnalytics.calculateMean]]
      rw [show (20 : ℝ) - 35/3 = 25/3 from by norm_num]
      exact abs_of_nonneg (by norm_num)
    have e13 : |ProcessAnalytics.calculateMean (stepValsR.drop 13) -
        ProcessAnalytics.calculateMean (stepValsR.take 13)| = 100/13 := by
      rw [show stepValsR.drop 13 = [(20:ℝ), 20, 20, 20, 20, 20, 20] from rfl,
        show stepValsR.take 13 = [(9.5:ℝ), 10.5, 10, 10, 10, 10, 10, 10, 10, 10, 19.5, 20.5, 20] from rfl]
      rw [show ProcessAnalytics.calculateMean [(20:ℝ), 20, 20, 20, 20, 20, 20] = 20 from by
          norm_num [ProcessAnalytics.calculateMean],
        show ProcessAnalytics.calculateMean [(9.5:ℝ), 10.5, 10, 10, 10, 10, 10, 10, 10, 10, 19.5, 20.5, 20] = 160/13 from by
          norm_num [ProcessAnalytics.calculateMean]]
      rw [show (20 : ℝ) - 160/13 = 100/13 from by norm_num]
      exact abs_of_nonneg (by norm_num)
    have e14 : |ProcessAnalytics.calculateMean (stepValsR.drop 14) -
        ProcessAnalytics.calculateMean (stepValsR.take 14)| = 50/7 := by
      rw [show stepValsR.drop 14 = [(20:ℝ), 20, 20, 20, 20, 20] from rfl,
        show stepValsR.take 14 = [(9.5:ℝ), 10.5, 10, 10, 10, 10, 10, 10, 10, 10, 19.5, 20.5, 20, 20] from rfl]
      rw [show ProcessAnalytics.calculateMean [(20:ℝ), 20, 20, 20, 20, 20] = 20 from by
          norm_num [ProcessAnalytics.calculateMean],
        show ProcessAnalytics.calculateMean [(9.5:ℝ), 10.5, 10, 10, 10, 10, 10, 10, 10, 10, 19.5, 20.5, 20, 20] = 90/7 from by
          norm_num [ProcessAnalytics.calculateMean]]
      rw [show (20 : ℝ) - 90/7 = 50/7 from by norm_num]
      exact abs_of_nonneg (by norm_num)
    have e15 : |ProcessAnalytics.calculateMean (stepValsR.drop 15) -
        ProcessAnalytics.calculateMean (stepValsR.take 15)| = 20/3 := by
      rw [show stepValsR.drop 15 = [(20:ℝ), 20, 20, 20, 20] from rfl,
        show stepValsR.take 15 = [(9.5:ℝ), 10.5, 10, 10, 10, 10, 10, 10, 10, 10, 19.5, 20.5, 20, 20, 20] from rfl]
      rw [show ProcessAnalytics.calculateMean [(20:ℝ), 20, 20, 20, 20] = 20 from by
          norm_num [ProcessAnalytics.calculateMean],
        show ProcessAnalytics.calculateMean [(9.5:ℝ), 10.5, 10, 10, 10, 10, 10, 10, 10, 10, 19.5, 20.5, 20, 20, 20] = 40/3 from by
          norm_num [ProcessAnalytics.calculateMean]]
      rw [show (20 : ℝ) - 40/3 = 20/3 from by norm_num]
      exact abs_of_nonneg (by norm_num)
    have e16 : |ProcessAnalytics.calculateMean (stepValsR.drop 16) -
        ProcessAnalytics.calculateMean (stepValsR.take 16)| = 25/4 := by
      rw [show stepValsR.drop 16 = [(20:ℝ), 20, 20, 20] from rfl,
        show stepValsR.take 16 = [(9.5:ℝ), 10.5, 10, 10, 10, 10, 10, 10, 10, 10, 19.5, 20.5, 20, 20, 20, 20] from rfl]
      rw [show ProcessAnalytics.calculateMean [(20:ℝ), 20, 20, 20] = 20 from by
          norm_num [ProcessAnalytics.calculateMean],
        show ProcessAnalytics.calculateMean [(9.5:ℝ), 10.5, 10, 10, 10, 10, 10, 10, 10, 10, 19.5, 20.5, 20, 20, 20, 20] = 55/4 from by
          norm_num [ProcessAnalytics.calculateMean]]
      rw [show (20 : ℝ) - 55/4 = 25/4 from by norm_num]
      exact abs_of_nonneg (by norm_num)
    have e17 : |ProcessAnalytics.calculateMean (stepValsR.drop 17) -
        ProcessAnalytics.calculateMean (stepValsR.take 17)| = 100/17 := by
      rw [show stepValsR.drop 17 = [(20:ℝ), 20, 20] from rfl,
        show stepValsR.take 17 = [(9.5:ℝ), 10.5, 10, 10, 10, 10, 10, 10, 10, 10, 19.5, 20.5, 20, 20, 20, 20, 20] from rfl]
      rw [show ProcessAnalytics.calculateMean [(20:ℝ), 20, 20] = 20 from by
          norm_num [ProcessAnalytics.calculateMean],
        show ProcessAnalytics.calculateMean [(9.5:ℝ), 10.5, 10, 10, 10, 10, 10, 10, 10, 10, 19.5, 20.5, 20, 20, 20, 20, 20] = 240/17 from by
          norm_num [ProcessAnalytics.calculateMean]]
      rw [show (20 : ℝ) - 240/17 = 100/17 from by norm_num]
      exact abs_of_nonneg (by norm_num)
    simp only [ProcessAnalytics.stepScan]
    rw [show stepValsR.length + 1 - 2 * 3 = 15 from rfl]
    rw [show List.range' 3 15 = [3,4,5,6,7,8,9,10,11,12,13,14,15,16,17] from rfl]
    simp only [List.foldl_cons, List.foldl_nil]
    simp only [e3, e4, e5, e6, e7, e8, e9, e10, e11, e12, e13, e14, e15, e16, e17]
    norm_num
  simp only [ProcessAnalytics.detectStepChangePattern, hvals]
  rw [if_neg (by rw [show stepValsR.length = 20 from rfl]; norm_num)]
  rw [show max 3 (stepValsR.length / 10) = 3 from rfl]
  rw [hscan]
  rw [show (((10:ℤ), (10:ℝ)).1) = (10:ℤ) from rfl]
  rw [if_neg (by decide : ¬ (10:ℤ) = -1)]
  rw [show ((10:ℤ)).toNat = 10 from rfl]
  rw [show List.take 10 stepValsR = [(9.5:ℝ), 10.5, 10, 10, 10, 10, 10, 10, 10, 10] from rfl]
  rw [show List.drop 10 stepValsR = [(19.5:ℝ), 20.5, 20, 20, 20, 20, 20, 20, 20, 20] from rfl]
  have hm1 : ProcessAnalytics.calculateMean [(9.5:ℝ), 10.5, 10, 10, 10, 10, 10, 10, 10, 10] = 10 := by
    norm_num [ProcessAnalytics.calculateMean]
  have hm2 : ProcessAnalytics.calculateMean [(19.5:ℝ), 20.5, 20, 20, 20, 20, 20, 20, 20, 20] = 20 := by
    norm_num [ProcessAnalytics.calculateMean]
  have hsd1 : ProcessAnalytics.calculateStandardDeviation
      [(9.5:ℝ), 10.5, 10, 10, 10, 10, 10, 10, 10, 10] = Real.sqrt (1/18) := by
    simp only [ProcessAnalytics.calculateStandardDeviation]
    rw [if_neg (by norm_num)]
    rw [hm1]
    congr 1
    norm_num
  have hsd2 : ProcessAnalytics.calculateStandardDeviation
      [(19.5:ℝ), 20.5, 20, 20, 20, 20, 20, 20, 20, 20] = Real.sqrt (1/18) := by
    simp only [ProcessAnalytics.calculateStandardDeviation]
    rw [if_neg (by norm_num)]
    rw [hm2]
    congr 1
    norm_num
  rw [hm1, hm2, hsd1, hsd2]
  rw [show ([(9.5:ℝ), 10.5, 10, 10, 10, 10, 10, 10, 10, 10] : List ℝ).length = 10 from rfl]
  rw [show ([(19.5:ℝ), 20.5, 20, 20, 20, 20, 20, 20, 20, 20] : List ℝ).length = 10 from rfl]
  rw [Real.sq_sqrt (by norm_num : (0 : ℝ) ≤ 1/18)]
  rw [show ((((10:ℕ):ℝ) - 1) * (1 / 18) + (((10:ℕ):ℝ) - 1) * (1 / 18)) /
      (((10:ℕ):ℝ) + ((10:ℕ):ℝ) - 2) * (1 / ((10:ℕ):ℝ) + 1 / ((10:ℕ):ℝ)) = 1/90 from by
    push_cast
    norm_num]
  rw [show |(20:ℝ) - 10| = 10 from by
    rw [show (20:ℝ) - 10 = 10 from by norm_num]
    exact abs_of_nonneg (by norm_num)]
  rw [show (10 + 10 - 2 : ℕ) = 18 from rfl]
  rw [show orDefault (5e-2 : ℝ) (5e-2 : ℝ) = 5e-2 from by norm_num [orDefault]]
  have hp : (5e-2 : ℝ) ≤ ProcessAnalytics.tDistPValue (10 / Real.sqrt (1/90)) 18 := by
    simp only [ProcessAnalytics.tDistPValue]
    rw [if_neg (by norm_num : ¬ (30:ℕ) < 18)]
    have ht2 : (10 / Real.sqrt (1/90)) * (10 / Real.sqrt (1/90)) = 9000 := by
      rw [div_mul_div_comm, Real.mul_self_sqrt (by norm_num : (0:ℝ) ≤ 1/90)]
      norm_num
    rw [ht2]
    have hx : ((18:ℕ):ℝ) / (((18:ℕ):ℝ) + 9000) = 1/501 := by
      push_cast
      norm_num
    rw [hx]
    have hsqrt14 : Real.sqrt (1/4) = 1/2 := by
      rw [show (1/4 : ℝ) = (1/2)^2 from by norm_num, Real.sqrt_sq (by norm_num : (0:ℝ) ≤ 1/2)]
    have hsq : (1/2 : ℝ) ≤ Real.sqrt (1 - 1/501) := by
      rw [← hsqrt14]
      exact Real.sqrt_le_sqrt (by norm_num)
    have hce : (1/2 : ℝ) ≤ 0.5 + 0.3989422804 * Real.exp (-(10 / Real.sqrt (1/90)) * (10 / Real.sqrt (1/90)) / 2) := by
      have h1 : (0:ℝ) ≤ Real.exp (-(10 / Real.sqrt (1/90)) * (10 / Real.sqrt (1/90)) / 2) :=
        (Real.exp_pos _).le
      nlinarith
    have hcast : (1 - 1 / (4 * ((18:ℕ):ℝ))) = 71/72 := by
      push_cast
      norm_num
    rw [hcast]
    nlinarith [hsq, hce, Real.sqrt_nonneg (1 - 1/501 : ℝ)]
  rw [if_pos hp]
